import Mathlib

/-!
Verification development for the EPICS-LSICorrelator IOC.

The Python sources are embedded shallowly: Python floats become `PyFloat`
(a rational together with the non-finite values), Python exceptions become
`PyErr` carried in `Except`, the pcaspy parameter store becomes a total
function from PV names to `Val`, and the measurement loop of
`LSiCorrelatorIOC.take_data` becomes a state transformer that also emits an
event trace (device starts, sleeps, file writes, alarm broadcasts).
-/

/-- Python exception classes that the embedded code can raise. -/
inductive PyErr
  | valueError (msg : String)
  | indexError (msg : String)
  | typeError (msg : String)
  | keyError (msg : String)
  | runtimeError (msg : String)
deriving DecidableEq

/-- A Python float: a finite rational or one of the IEEE non-finite values. -/
inductive PyFloat
  | finite (q : ℚ)
  | nan
  | inf
  | ninf
deriving DecidableEq

/-- np.isfinite: true exactly on finite values. -/
def PyFloat.isFinite : PyFloat → Bool
  | .finite _ => true
  | _ => false

/-- Python float comparison a >= b (any comparison involving NaN is false). -/
def PyFloat.geb : PyFloat → PyFloat → Bool
  | .nan, _ => false
  | _, .nan => false
  | .inf, _ => true
  | .ninf, .ninf => true
  | .ninf, _ => false
  | .finite _, .inf => false
  | .finite _, .ninf => true
  | .finite a, .finite b => b ≤ a

/-- A dynamically typed Python value as held in a PV parameter. -/
inductive Val
  | int (n : ℤ)
  | float (x : PyFloat)
  | bool (b : Bool)
  | str (s : String)
  | arr (xs : List PyFloat)
  | enm (member : String)
  | pyNone
deriving DecidableEq

/-- Python truthiness, as applied by the built-in bool() conversion used by
the START / STOP / RUNNING / CONNECTED record configurations. -/
def pyBool : Val → Bool
  | .int n => n ≠ 0
  | .float (.finite q) => q ≠ 0
  | .float _ => true
  | .bool b => b
  | .str s => s ≠ ""
  | .arr xs => xs ≠ []
  | .enm _ => true
  | .pyNone => false

/-- Python 3 built-in round() on a rational: round-half-to-even. -/
def pyRoundQ (q : ℚ) : ℤ :=
  let f : ℤ := ⌊q⌋
  let r : ℚ := q - (f : ℚ)
  if r < 1/2 then f
  else if 1/2 < r then f + 1
  else if f % 2 = 0 then f else f + 1

/-- Python round() applied to a PV value: numbers round to an integer, NaN and
the infinities raise ValueError / OverflowError, non-numbers raise TypeError. -/
def pyRound : Val → Except PyErr Val
  | .int n => .ok (.int n)
  | .float (.finite q) => .ok (.int (pyRoundQ q))
  | .float .nan => .error (.valueError "cannot convert float NaN to integer")
  | .float _ => .error (.valueError "cannot convert float infinity to integer")
  | .bool b => .ok (.int (if b then 1 else 0))
  | _ => .error (.typeError "type cannot be interpreted as an integer")

/-- Python list indexing seq[i]: negative indices count from the end, anything
out of range raises IndexError. -/
def pyIndex {α : Type} (l : List α) (i : ℤ) : Except PyErr α :=
  if h : 0 ≤ i ∧ i.toNat < l.length then .ok (l.get ⟨i.toNat, h.2⟩)
  else if h : 0 ≤ i + l.length ∧ (i + l.length).toNat < l.length then
    .ok (l.get ⟨(i + l.length).toNat, h.2⟩)
  else .error (.indexError "list index out of range")

/-- Python list.index(x): position of the first occurrence, ValueError if
absent. -/
def pyListIndex {α : Type} [DecidableEq α] (l : List α) (x : α) : Except PyErr ℕ :=
  if x ∈ l then .ok (l.indexOf x) else .error (.valueError "x not in list")

/-- Calling a Python Enum class on one of its members returns that member
(calling it on anything else raises ValueError).  Enum classes are modelled by
the list of their members in definition order, which Python guarantees to be
duplicate-free. -/
def pyEnumCall {α : Type} [DecidableEq α] (enum_class : List α) (x : α) :
    Except PyErr α :=
  if x ∈ enum_class then .ok x else .error (.valueError "not a valid member")

section EnumConversions

/-! From src/pvdb.py lines 42-63 (identically in src/PVConfig.py lines 27-48):
the positional-index conversions between PV enum values and LSI_Param enum
members. -/

variable {α : Type} [DecidableEq α]

/-- pvdb.convert_pv_enum_to_lsi_enum: `[enum for enum in enum_class][pv_value]`. -/
def convert_pv_enum_to_lsi_enum (enum_class : List α) (pv_value : ℤ) :
    Except PyErr α :=
  pyIndex enum_class pv_value

/-- pvdb.convert_lsi_enum_to_pv_value: `enum_as_list.index(enum_class(current_state))`. -/
def convert_lsi_enum_to_pv_value (enum_class : List α) (current_state : α) :
    Except PyErr ℕ :=
  match pyEnumCall enum_class current_state with
  | .error e => .error e
  | .ok state_name => pyListIndex enum_class state_name

end EnumConversions

/-- C8: for every enumerated register and every valid enum index i, converting
the PV value to the device enum member and back is the identity. -/
theorem enum_round_trip {α : Type} [DecidableEq α] (enum_class : List α)
    (hnd : enum_class.Nodup) (i : ℕ) (hi : i < enum_class.length) :
    (convert_pv_enum_to_lsi_enum enum_class (i : ℤ)).bind
      (convert_lsi_enum_to_pv_value enum_class) = .ok i := by
  have hidx : convert_pv_enum_to_lsi_enum enum_class (i : ℤ) =
      .ok (enum_class.get ⟨i, hi⟩) := by
    unfold convert_pv_enum_to_lsi_enum pyIndex
    rw [dif_pos ⟨Int.ofNat_nonneg i, by simpa using hi⟩]
    simp
  rw [hidx]
  have hmem : enum_class.get ⟨i, hi⟩ ∈ enum_class := List.get_mem _ _ hi
  simp only [Except.bind, convert_lsi_enum_to_pv_value, pyEnumCall, if_pos hmem,
    pyListIndex, if_pos hmem]
  simpa using List.indexOf_getElem hnd i hi

/-- C8 witness: the round trip evaluated at index 1 of a three-member enum. -/
theorem enum_round_trip_witness :
    (convert_pv_enum_to_lsi_enum ["AUTO", "CROSS", "TEST"] (1 : ℤ)).bind
      (convert_lsi_enum_to_pv_value ["AUTO", "CROSS", "TEST"]) = .ok 1 :=
  enum_round_trip ["AUTO", "CROSS", "TEST"] (by decide) 1 (by decide)

/-- Modelled from the spec: the current revision of
`LSiCorrelatorVendorInterface.get_data_as_arrays` (the one that accepts the
`min_time_lag` argument passed by `LSiCorrelatorIOC.take_data` and by
`tests.py`) is absent from src/ — the file present there is a superseded
revision filtering on finiteness only.  Per spec sections 4.4 and 8, the
measurement filter keeps a `(lag, correlation)` pair exactly when the
correlation value is finite AND the lag is >= `min_time_lag`, preserving
order. -/
def filter_measurement (min_time_lag : PyFloat) (lags corr : List PyFloat) :
    List PyFloat × List PyFloat :=
  let kept := (lags.zip corr).filter fun p =>
    p.2.isFinite && PyFloat.geb p.1 min_time_lag
  (kept.map Prod.fst, kept.map Prod.snd)

/-- C1: the filtering step returns two arrays of equal length, no longer than
the input, in which every retained correlation is finite and every retained
lag is >= the threshold, with surviving pairs kept in their original order
(the kept pair list is a sublist of the input pair list). -/
theorem filter_invariant (min_time_lag : PyFloat) (lags corr : List PyFloat)
    (hlen : lags.length = corr.length) :
    ((filter_measurement min_time_lag lags corr).1.length =
        (filter_measurement min_time_lag lags corr).2.length) ∧
    ((filter_measurement min_time_lag lags corr).1.length ≤ lags.length) ∧
    (∀ p ∈ (filter_measurement min_time_lag lags corr).1.zip
        (filter_measurement min_time_lag lags corr).2,
      p.2.isFinite = true ∧ PyFloat.geb p.1 min_time_lag = true) ∧
    ((filter_measurement min_time_lag lags corr).1.zip
        (filter_measurement min_time_lag lags corr).2).Sublist
      (lags.zip corr) := by
  unfold filter_measurement
  set kept := (lags.zip corr).filter
    (fun p => p.2.isFinite && PyFloat.geb p.1 min_time_lag) with hkept
  have hzip : (kept.map Prod.fst).zip (kept.map Prod.snd) = kept := by
    induction kept with
    | nil => rfl
    | cons h t ih => simp [List.zip, ih]
  refine ⟨by simp, ?_, ?_, ?_⟩
  · have h1 : kept.length ≤ (lags.zip corr).length := (List.filter_sublist _).length_le
    have h2 : (lags.zip corr).length = lags.length := by
      simp [List.length_zip, hlen]
    simpa [h2] using h1
  · intro p hp
    rw [hzip] at hp
    have := List.of_mem_filter hp
    exact ⟨by simpa using (Bool.and_elim_left (by simpa using this)),
      by simpa using (Bool.and_elim_right (by simpa using this))⟩
  · rw [hzip]
    exact List.filter_sublist _

/-- C1 witness: the filter evaluated on a concrete array pair containing a NaN
correlation, a too-small lag and one surviving pair. -/
theorem filter_invariant_witness :
    ([PyFloat.finite 50, PyFloat.finite 250, PyFloat.nan,
        PyFloat.finite 300] : List PyFloat).length =
      ([PyFloat.finite 1, PyFloat.finite (1/2), PyFloat.finite 2,
        PyFloat.nan] : List PyFloat).length ∧
    (filter_measurement (PyFloat.finite 200)
      [PyFloat.finite 50, PyFloat.finite 250, PyFloat.nan, PyFloat.finite 300]
      [PyFloat.finite 1, PyFloat.finite (1/2), PyFloat.finite 2,
        PyFloat.nan]).1.length ≤ 4 :=
  ⟨by decide,
    (filter_invariant (PyFloat.finite 200)
      [PyFloat.finite 50, PyFloat.finite 250, PyFloat.nan, PyFloat.finite 300]
      [PyFloat.finite 1, PyFloat.finite (1/2), PyFloat.finite 2, PyFloat.nan]
      (by decide)).2.1⟩

/-! ### State of the pcaspy driver (src/correlator_pcaspy.py)

`LSiCorrelatorIOC` holds the pcaspy parameter table (name -> value and
name -> alarm status/severity), the shared alarm state, the re-entrancy
guard `already_started`, and the vendor interface
(`LSiCorrelatorVendorInterface`) whose observable fields are `corr`, `lags`,
`has_data`, `is_connected` and the device handle.  The device handle is
modelled by the number of configure()/start() calls performed, the error
configure() raises (if any), and the acquisition outcome published after the
nth start() (None models a disconnected correlator whose `Correlation`
attribute is absent). -/

/-- One acquisition outcome read back from the device buffers. -/
structure AcqData where
  corr : List PyFloat
  lags : List PyFloat
  traceChA : List PyFloat
  traceChB : List PyFloat
deriving DecidableEq

/-- The vendor device handle, as observed by this IOC. -/
structure DeviceState where
  startCount : ℕ
  configureCount : ℕ
  configureError : Option String
  acq : ℕ → Option AcqData

/-- pcaspy alarm status values used by the IOC (Alarm.NO_ALARM /
Alarm.TIMEOUT_ALARM). -/
inductive AlarmStatus
  | noAlarm
  | timeoutAlarm
deriving DecidableEq

/-- pcaspy severity values used by the IOC (Severity.NO_ALARM /
Severity.INVALID_ALARM). -/
inductive SeverityLevel
  | noAlarm
  | invalidAlarm
deriving DecidableEq

/-- An alarm status/severity pair as stamped by setParamStatus. -/
structure AlarmPair where
  status : AlarmStatus
  severity : SeverityLevel
deriving DecidableEq

/-- The mutable state of the IOC driver object. -/
structure IocState where
  params : String → Val
  statuses : String → AlarmPair
  alarm_status : AlarmStatus
  alarm_severity : SeverityLevel
  already_started : Bool
  device : DeviceState
  drvCorr : List PyFloat
  drvLags : List PyFloat
  has_data : Bool
  is_connected : Bool
  user_filepath : String

/-- Point update of the parameter table (pcaspy setParam). -/
def setParamF (p : String → Val) (k : String) (v : Val) : String → Val :=
  fun k2 => if k2 = k then v else p k2

/-- Point update of the status table (pcaspy setParamStatus). -/
def setStatusF (p : String → AlarmPair) (k : String) (a : AlarmPair) :
    String → AlarmPair :=
  fun k2 => if k2 = k then a else p k2

/-- Observable events emitted while the embedded code runs. -/
inductive Ev
  | paramSet (name : String) (v : Val)
  | statusSet (name : String) (a : AlarmPair)
  | logMsg (msg : String)
  | deviceConfigured
  | deviceStart (n : ℕ)
  | sleepSeconds (secs : ℤ)
  | fileWrite (rep : ℤ)
  | alarmBroadcast (a : AlarmPair)
deriving DecidableEq

/-- True on device start events. -/
def Ev.isStart : Ev → Bool
  | .deviceStart _ => true
  | _ => false

/-- True on sleep events (the inter-repetition wait). -/
def Ev.isSleep : Ev → Bool
  | .sleepSeconds _ => true
  | _ => false

/-- True on the file-write event of the given repetition. -/
def Ev.isFileWriteOf (rep : ℤ) : Ev → Bool
  | .fileWrite r => r == rep
  | _ => false

/-- True on the events emitted by plain parameter updates (setParam /
setParamStatus / logging), which touch no device and write no file. -/
def Ev.isPassive : Ev → Bool
  | .paramSet _ _ => true
  | .statusSet _ _ => true
  | .logMsg _ => true
  | _ => false

/-! ### Record definitions (src/pvdb.py, src/record.py, src/PVConfig.py) -/

/-- The information this driver consults on a record: its conversions and its
device write-through (record.py `Record`; the stale pvdb.py `PvDefinition`
carries the same fields). -/
structure Rec where
  name : String
  hasSetpoint : Bool
  convert_from_pv : Val → Except PyErr Val
  convert_to_pv : Val → Except PyErr Val
  set_on_device : DeviceState → Val → Except PyErr DeviceState

/-- pvdb.do_nothing: identity conversion. -/
def do_nothing (value : Val) : Except PyErr Val := .ok value

/-- record.null_device_setter: a device write-through that does nothing. -/
def null_device_setter (device : DeviceState) (_ : Val) :
    Except PyErr DeviceState := .ok device

/-- The convert_from_pv=bool configuration: Python bool() never raises. -/
def bool_from_pv (value : Val) : Except PyErr Val := .ok (.bool (pyBool value))

/-- An LSI_Param enum conversion `partial(convert_pv_enum_to_lsi_enum, cls)`
applied to a PV value.  The PV layer hands over the enum integer; Python bools
index as 0/1 (bool is an int subclass) and anything else raises TypeError from
the list indexing. -/
def enum_from_pv (members : List String) (value : Val) : Except PyErr Val :=
  match value with
  | .int n => (convert_pv_enum_to_lsi_enum members n).map Val.enm
  | .bool b => (convert_pv_enum_to_lsi_enum members (if b then 1 else 0)).map Val.enm
  | _ => .error (.typeError "list indices must be integers or slices")

/-- An LSI_Param enum conversion `partial(convert_lsi_enum_to_pv_value, cls)`
applied to a held member value. -/
def enum_to_pv (members : List String) (value : Val) : Except PyErr Val :=
  match value with
  | .enm s => (convert_lsi_enum_to_pv_value members s).map fun n => Val.int n
  | _ => .error (.valueError "is not a valid member")

/-- The external vendor API (LSICorrelator and LSI_Param are external
collaborators, spec section 6): the enum member lists and the behaviour of
each device setter are parameters of the model. -/
structure VendorApi where
  membersCorrelationType : List String
  membersNormalization : List String
  membersSwapChannels : List String
  membersSamplingTimeMultiT : List String
  membersTransferRate : List String
  setCorrelationType : DeviceState → Val → Except PyErr DeviceState
  setNormalization : DeviceState → Val → Except PyErr DeviceState
  setMeasurementDuration : DeviceState → Val → Except PyErr DeviceState
  setSwapChannels : DeviceState → Val → Except PyErr DeviceState
  setSamplingTimeMultiT : DeviceState → Val → Except PyErr DeviceState
  setTransferRate : DeviceState → Val → Except PyErr DeviceState
  setOverloadLimit : DeviceState → Val → Except PyErr DeviceState
  setOverloadTimeInterval : DeviceState → Val → Except PyErr DeviceState
  stopDevice : DeviceState → Val → Except PyErr DeviceState

/-- The record table of the current pvdb revision, keyed by PV name.  Entries
present in src/pvdb.py keep that file's conversions; the device setters are
the ones attached in src/PVConfig.py `get_pv_configs`.  The records that only
the current (missing) pvdb revision defines are marked below and are
modelled from the spec: WAITING / WAIT_AT_START / TAKING_DATA are
boolean-as-enum registers, WAIT and MIN_TIME_LAG are integer-as-float
registers (config.py defaults 0 and 200), OUTPUTFILE and EXPERIMENTNAME are
character registers with identity conversions; none of them has a device
write-through. -/
def theRecords (v : VendorApi) : String → Option Rec := fun reason =>
  if reason = "CORRELATIONTYPE" then
    some ⟨reason, true, enum_from_pv v.membersCorrelationType,
      enum_to_pv v.membersCorrelationType, v.setCorrelationType⟩
  else if reason = "NORMALIZATION" then
    some ⟨reason, true, enum_from_pv v.membersNormalization,
      enum_to_pv v.membersNormalization, v.setNormalization⟩
  else if reason = "MEASUREMENTDURATION" then
    some ⟨reason, true, pyRound, do_nothing, v.setMeasurementDuration⟩
  else if reason = "SWAPCHANNELS" then
    some ⟨reason, true, enum_from_pv v.membersSwapChannels,
      enum_to_pv v.membersSwapChannels, v.setSwapChannels⟩
  else if reason = "SAMPLINGTIMEMULTIT" then
    some ⟨reason, true, enum_from_pv v.membersSamplingTimeMultiT,
      enum_to_pv v.membersSamplingTimeMultiT, v.setSamplingTimeMultiT⟩
  else if reason = "TRANSFERRATE" then
    some ⟨reason, true, enum_from_pv v.membersTransferRate,
      enum_to_pv v.membersTransferRate, v.setTransferRate⟩
  else if reason = "OVERLOADLIMIT" then
    some ⟨reason, true, pyRound, do_nothing, v.setOverloadLimit⟩
  else if reason = "OVERLOADINTERVAL" then
    some ⟨reason, true, pyRound, do_nothing, v.setOverloadTimeInterval⟩
  else if reason = "ERRORMSG" then
    some ⟨reason, false, do_nothing, do_nothing, null_device_setter⟩
  else if reason = "FILEPATH" then
    some ⟨reason, true, do_nothing, do_nothing, null_device_setter⟩
  else if reason = "FILENAME" then
    some ⟨reason, false, do_nothing, do_nothing, null_device_setter⟩
  else if reason = "START" then
    some ⟨reason, true, bool_from_pv, do_nothing, null_device_setter⟩
  else if reason = "STOP" then
    some ⟨reason, true, bool_from_pv, do_nothing, v.stopDevice⟩
  else if reason = "CORRELATION_FUNCTION" then
    some ⟨reason, false, do_nothing, do_nothing, null_device_setter⟩
  else if reason = "LAGS" then
    some ⟨reason, false, do_nothing, do_nothing, null_device_setter⟩
  else if reason = "TRACEA" then
    some ⟨reason, false, do_nothing, do_nothing, null_device_setter⟩
  else if reason = "TRACEB" then
    some ⟨reason, false, do_nothing, do_nothing, null_device_setter⟩
  else if reason = "REPETITIONS" then
    some ⟨reason, true, pyRound, do_nothing, null_device_setter⟩
  else if reason = "CURRENT_REPETITION" then
    some ⟨reason, false, do_nothing, do_nothing, null_device_setter⟩
  else if reason = "RUNNING" then
    some ⟨reason, false, bool_from_pv, do_nothing, null_device_setter⟩
  else if reason = "CONNECTED" then
    some ⟨reason, false, bool_from_pv, do_nothing, null_device_setter⟩
  else if reason = "SCATTERING_ANGLE" then
    some ⟨reason, true, do_nothing, do_nothing, null_device_setter⟩
  else if reason = "SAMPLE_TEMP" then
    some ⟨reason, true, do_nothing, do_nothing, null_device_setter⟩
  else if reason = "SOLVENT_VISCOSITY" then
    some ⟨reason, true, do_nothing, do_nothing, null_device_setter⟩
  else if reason = "SOLVENT_REFRACTIVE_INDEX" then
    some ⟨reason, true, do_nothing, do_nothing, null_device_setter⟩
  else if reason = "LASER_WAVELENGTH" then
    some ⟨reason, true, do_nothing, do_nothing, null_device_setter⟩
  else if reason = "SIM" then
    some ⟨reason, false, bool_from_pv, do_nothing, null_device_setter⟩
  else if reason = "DISABLE" then
    some ⟨reason, false, bool_from_pv, do_nothing, null_device_setter⟩
  else if reason = "EXPERIMENTNAME" then
    some ⟨reason, true, do_nothing, do_nothing, null_device_setter⟩
  else if reason = "OUTPUTFILE" then
    some ⟨reason, false, do_nothing, do_nothing, null_device_setter⟩
  else if reason = "WAITING" then
    some ⟨reason, false, bool_from_pv, do_nothing, null_device_setter⟩
  else if reason = "WAIT" then
    some ⟨reason, true, pyRound, do_nothing, null_device_setter⟩
  else if reason = "WAIT_AT_START" then
    some ⟨reason, true, bool_from_pv, do_nothing, null_device_setter⟩
  else if reason = "MIN_TIME_LAG" then
    some ⟨reason, true, pyRound, do_nothing, null_device_setter⟩
  else if reason = "TAKING_DATA" then
    some ⟨reason, false, bool_from_pv, do_nothing, null_device_setter⟩
  else none

/-- The names of the Records enum members, in definition order, as iterated
by `for record in Records` in set_disconnected_alarms. -/
def RECORDS_LIST : List String :=
  ["CORRELATIONTYPE", "NORMALIZATION", "MEASUREMENTDURATION", "SWAPCHANNELS",
   "SAMPLINGTIMEMULTIT", "TRANSFERRATE", "OVERLOADLIMIT", "OVERLOADINTERVAL",
   "ERRORMSG", "FILEPATH", "FILENAME", "START", "STOP",
   "CORRELATION_FUNCTION", "LAGS", "TRACEA", "TRACEB", "REPETITIONS",
   "CURRENT_REPETITION", "RUNNING", "CONNECTED", "SCATTERING_ANGLE",
   "SAMPLE_TEMP", "SOLVENT_VISCOSITY", "SOLVENT_REFRACTIVE_INDEX",
   "LASER_WAVELENGTH", "SIM", "DISABLE", "EXPERIMENTNAME", "OUTPUTFILE",
   "WAITING", "WAIT", "WAIT_AT_START", "MIN_TIME_LAG", "TAKING_DATA"]

/-! ### Parameter updates (src/correlator_pcaspy.py lines 158-218) -/

/-- LSiCorrelatorIOC.update_param_and_fields: updates the param, its .VAL
field and stamps the current alarm status/severity.  pcaspy setParam is
modelled as total, so the except-ValueError branch of the source is
unreachable in the model. -/
def update_param_and_fields (s : IocState) (reason : String) (value : Val) :
    IocState × List Ev :=
  let p1 := setParamF s.params reason value
  let p2 := setParamF p1 (reason ++ ".VAL") value
  let st := setStatusF s.statuses reason ⟨s.alarm_status, s.alarm_severity⟩
  ({ s with params := p2, statuses := st },
   [.paramSet reason value, .paramSet (reason ++ ".VAL") value,
    .statusSet reason ⟨s.alarm_status, s.alarm_severity⟩])

/-- The recursive call `update_pv_and_write_to_device(Records.ERRORMSG.name,
error)` made by update_error_pv_print_and_log, unfolded: the ERRORMSG record
converts with do_nothing on both sides and has no device setter, so the call
reduces to update_param_and_fields("ERRORMSG", error). -/
def errormsg_update (s : IocState) (error : String) : IocState × List Ev :=
  update_param_and_fields s "ERRORMSG" (.str error)

/-- LSiCorrelatorIOC.update_error_pv_print_and_log: writes the error text to
the ERRORMSG record, then prints and logs it. -/
def update_error_pv_print_and_log (s : IocState) (error : String) :
    IocState × List Ev :=
  let r := errormsg_update s error
  (r.1, r.2 ++ [.logMsg error])

/-- LSiCorrelatorIOC.update_pv_and_write_to_device: looks the record up
(KeyError is reported through ERRORMSG), runs the value through both input
sanitisers, performs the device write-through, and only on its success
updates the param, its fields and (when requested) the :SP mirror.  A
conversion failure, or a non-ValueError setter failure, escapes the method
and is swallowed by the @_error_handler decorator, which logs the traceback
and mutates nothing. -/
def update_pv_and_write_to_device (tbl : String → Option Rec) (s : IocState)
    (reason : String) (value : Val) (update_setpoint : Bool) :
    IocState × List Ev :=
  match tbl reason with
  | none =>
      let r := errormsg_update s ("Can't update PV " ++ reason ++ ", PV not found")
      (r.1, r.2 ++ [.logMsg ("Can't update PV " ++ reason ++ ", PV not found")])
  | some record =>
    match record.convert_from_pv value with
    | .error _ => (s, [.logMsg "traceback"])
    | .ok value_for_lsi_driver =>
      match record.convert_to_pv value_for_lsi_driver with
      | .error _ => (s, [.logMsg "traceback"])
      | .ok new_pv_value =>
        match record.set_on_device s.device value_for_lsi_driver with
        | .error (.valueError msg) =>
            let r1 := update_error_pv_print_and_log s
              ("Can't update PV " ++ reason ++ ", invalid value")
            let r2 := update_error_pv_print_and_log r1.1 msg
            (r2.1, r1.2 ++ r2.2)
        | .error _ => (s, [.logMsg "traceback"])
        | .ok dev2 =>
          let s1 : IocState := { s with device := dev2 }
          let r2 := update_param_and_fields s1 reason new_pv_value
          if update_setpoint then
            let r3 := update_param_and_fields r2.1 (reason ++ ":SP") new_pv_value
            (r3.1, r2.2 ++ r3.2)
          else (r2.1, r2.2)

/-- LSiCorrelatorIOC.set_array_pv_value: updates an array PV and its .NORD
field with the array length (the values written are the driver ndarrays). -/
def set_array_pv_value (tbl : String → Option Rec) (s : IocState)
    (reason : String) (value : List PyFloat) : IocState × List Ev :=
  let r := update_pv_and_write_to_device tbl s reason (.arr value) false
  ({ r.1 with
      params := setParamF r.1.params (reason ++ ".NORD") (.int value.length) },
   r.2 ++ [.paramSet (reason ++ ".NORD") (.int value.length)])

/-- LSiCorrelatorIOC.set_disconnected_alarms: choose TIMEOUT/INVALID (in
alarm) or NO_ALARM/NO_ALARM, store the pair as the shared alarm state and
stamp it onto every record of the catalog. -/
def set_disconnected_alarms (s : IocState) (in_alarm : Bool) :
    IocState × List Ev :=
  let severity := if in_alarm then SeverityLevel.invalidAlarm
    else SeverityLevel.noAlarm
  let status := if in_alarm then AlarmStatus.timeoutAlarm else AlarmStatus.noAlarm
  ({ s with
      alarm_status := status,
      alarm_severity := severity,
      statuses := RECORDS_LIST.foldl
        (fun acc name => setStatusF acc name ⟨status, severity⟩) s.statuses },
   [.alarmBroadcast ⟨status, severity⟩])

/-! ### Read path and write dispatch (src/correlator_pcaspy.py lines 38-44,
220-255) -/

/-- get_base_pv: trims the trailing :SP off a PV name (Python `reason[:-3]`,
character based). -/
def get_base_pv (reason : String) : String :=
  String.mk (reason.data.take (reason.data.length - 3))

/-- Python str.endswith, character based. -/
def pyEndsWith (s tail : String) : Bool :=
  tail.data.isSuffixOf s.data

/-- pcaspy getParam. -/
def getParam (s : IocState) (reason : String) : Val := s.params reason

/-- LSiCorrelatorIOC.read: a read of `X:SP` returns the stored value of the
base PV `X`; any other read returns the PV's own stored value.  (The
updatePVs() refresh touches only the channel-access layer.) -/
def IOC.read (s : IocState) (reason : String) : Val :=
  if pyEndsWith reason ":SP" then getParam s (get_base_pv reason)
  else getParam s reason

/-- LSiCorrelatorIOC.get_converted_pv_value: applies the defining record's
convert_from_pv to the current value; a reason with no defining record
(KeyError) returns the raw value. -/
def get_converted_pv_value (tbl : String → Option Rec) (s : IocState)
    (reason : String) : Except PyErr Val :=
  let pv_value := IOC.read s reason
  match tbl reason with
  | some record => record.convert_from_pv pv_value
  | none => .ok pv_value

/-- A work item handed to the shared thread pool by LSiCorrelatorIOC.write. -/
inductive IocTask
  | takeData
  | updatePv (reason : String) (value : Val) (update_setpoint : Bool)
deriving DecidableEq

/-- LSiCorrelatorIOC.write: a write to START submits the measurement run only
when the already_started guard is clear, and otherwise reports the rejection
through ERRORMSG; every write additionally submits the corresponding
update_pv_and_write_to_device task (the :SP alias resolving to the base name
with update_setpoint=True). -/
def write (s : IocState) (reason : String) (value : Val) :
    IocState × List Ev × List IocTask :=
  let r1 : IocState × List Ev × List IocTask :=
    if reason = "START" ∧ ¬(s.already_started = true) then
      (s, [.logMsg "LSiCorrelatorDriver: Processing PV write"], [.takeData])
    else if reason = "START" ∧ s.already_started = true then
      let r := update_error_pv_print_and_log s
        "LSI --- Cannot configure: Measurement active"
      (r.1, Ev.logMsg "LSiCorrelatorDriver: Processing PV write" :: r.2, [])
    else (s, [.logMsg "LSiCorrelatorDriver: Processing PV write"], [])
  let t2 : List IocTask :=
    if pyEndsWith reason ":SP" then [.updatePv (get_base_pv reason) value true]
    else [.updatePv reason value false]
  (r1.1, r1.2.1, r1.2.2 ++ t2)

/-! ### The measurement run (src/correlator_pcaspy.py lines 257-323) -/

/-- LSiCorrelatorIOC.wait: publish WAITING=true, sleep, publish
WAITING=false. -/
def wait (tbl : String → Option Rec) (s : IocState) (wait_in_seconds : ℤ) :
    IocState × List Ev :=
  let r1 := update_pv_and_write_to_device tbl s "WAITING" (.bool true) false
  let r2 := update_pv_and_write_to_device tbl r1.1 "WAITING" (.bool false) false
  (r2.1, r1.2 ++ [.sleepSeconds wait_in_seconds] ++ r2.2)

/-- Modelled from the spec: the current revision of
`LSiCorrelatorVendorInterface.take_data(min_time_lag)` called by the IOC loop
is absent from src/ (the file there is a superseded revision whose argument
is a sleep duration).  As in both the spec (section 4.4) and the superseded
revision, it starts the device, polls until the measurement ends (the 0.5 s
poll/update loop is abstracted into the per-start acquisition outcome
`DeviceState.acq`), and then either flags the driver disconnected when
`device.Correlation` is absent or stores the filtered correlation/lags. -/
def driver_take_data (s : IocState) (min_time_lag : ℚ) : IocState × List Ev :=
  let k := s.device.startCount
  let dev2 : DeviceState := { s.device with startCount := k + 1 }
  match s.device.acq k with
  | none =>
      ({ s with
          device := dev2,
          has_data := false,
          is_connected := false },
        [.deviceStart k])
  | some d =>
      let fd := filter_measurement (.finite min_time_lag) d.lags d.corr
      ({ s with
          device := dev2,
          has_data := true,
          drvCorr := fd.2,
          drvLags := fd.1 },
        [.deviceStart k])

/-- The `self.driver.configure()` call guarded by `except RuntimeError` at
the top of take_data: a RuntimeError is reported through ERRORMSG and
execution continues. -/
def configure_step (s : IocState) : IocState × List Ev :=
  match s.device.configureError with
  | some msg => update_error_pv_print_and_log s msg
  | none =>
      ({ s with
          device := { s.device with
            configureCount := s.device.configureCount + 1 } },
        [.deviceConfigured])

/-- The run parameters read from the PV table at the top of take_data. -/
structure RunConfig where
  no_repetitions : ℤ
  wait_in_seconds : ℤ
  wait_at_start : Bool
  min_time_lag : ℚ
deriving DecidableEq

/-- Extracting the integer from a converted PV value (the uses below follow
a round() conversion, so a well-typed read always lands in the int case;
other shapes correspond to the TypeError Python would raise at the use
site). -/
def asInt : Val → Except PyErr ℤ
  | .int n => .ok n
  | .bool b => .ok (if b then 1 else 0)
  | _ => .error (.typeError "an integer is required")

/-- The four get_converted_pv_value reads at the top of take_data, with the
MIN_TIME_LAG nanoseconds value converted to seconds (division by 1e9). -/
def read_run_config (tbl : String → Option Rec) (s : IocState) :
    Except PyErr RunConfig :=
  match get_converted_pv_value tbl s "REPETITIONS" with
  | .error e => .error e
  | .ok vreps =>
  match asInt vreps with
  | .error e => .error e
  | .ok no_repetitions =>
  match get_converted_pv_value tbl s "WAIT" with
  | .error e => .error e
  | .ok vwait =>
  match asInt vwait with
  | .error e => .error e
  | .ok wait_in_seconds =>
  match get_converted_pv_value tbl s "WAIT_AT_START" with
  | .error e => .error e
  | .ok vwas =>
  match get_converted_pv_value tbl s "MIN_TIME_LAG" with
  | .error e => .error e
  | .ok vmtl =>
  match asInt vmtl with
  | .error e => .error e
  | .ok min_time_lag_ns =>
    .ok ⟨no_repetitions, wait_in_seconds, pyBool vwas,
      (min_time_lag_ns : ℚ) / 1000000000⟩

/-- The filename composed by get_user_filename (run number, title and
timestamp are external inputs; in simulation mode it is a constant from
config.py), published to the OUTPUTFILE record; the files are then opened
fresh and driver.save_data writes the payload to both, recorded here as one
fileWrite event for the repetition. -/
def save_step (tbl : String → Option Rec) (s : IocState) (repeatIdx : ℤ) :
    IocState × List Ev :=
  let filename := s.user_filepath ++ "LSICORR_IOC_test_user_save.dat"
  let r := update_pv_and_write_to_device tbl s "OUTPUTFILE" (.str filename) false
  (r.1, r.2 ++ [.fileWrite repeatIdx])

/-- The body of `for repeat in range(1, no_repetitions + 1)` in take_data:
publish the current repetition, wait when `(repeat == first_repetition and
wait_at_start) or repeat != first_repetition`, run one acquisition between
RUNNING=true/false, then either publish and save the data or report a
disconnection and broadcast the alarm. -/
def loop_body (v : VendorApi) (cfg : RunConfig) (s : IocState)
    (repeatIdx : ℤ) : IocState × List Ev :=
  let tbl := theRecords v
  let r1 := update_pv_and_write_to_device tbl s "CURRENT_REPETITION"
    (.int repeatIdx) false
  let r2 :=
    if (repeatIdx == 1 && cfg.wait_at_start) || repeatIdx != 1 then
      wait tbl r1.1 cfg.wait_in_seconds
    else (r1.1, [])
  let r3 := update_pv_and_write_to_device tbl r2.1 "RUNNING" (.bool true) false
  let r4 := driver_take_data r3.1 cfg.min_time_lag
  let r5 := update_pv_and_write_to_device tbl r4.1 "RUNNING" (.bool false) false
  if r5.1.has_data then
    let r6 := set_array_pv_value tbl r5.1 "CORRELATION_FUNCTION" r5.1.drvCorr
    let r7 := set_array_pv_value tbl r6.1 "LAGS" r6.1.drvLags
    let r8 := save_step tbl r7.1 repeatIdx
    (r8.1, r1.2 ++ r2.2 ++ r3.2 ++ r4.2 ++ r5.2 ++ r6.2 ++ r7.2 ++ r8.2)
  else
    let r6 := update_pv_and_write_to_device tbl r5.1 "CONNECTED" (.bool false) false
    let r7 := update_error_pv_print_and_log r6.1
      "LSiCorrelatorDriver: No data read, device could be disconnected"
    let r8 := set_disconnected_alarms r7.1 true
    (r8.1, r1.2 ++ r2.2 ++ r3.2 ++ r4.2 ++ r5.2 ++ r6.2 ++ r7.2 ++ r8.2)

/-- The repetition loop, unrolled over the remaining repetition count
(`range(1, no_repetitions + 1)` visits repeatIdx, repeatIdx+1, ...). -/
def run_loop (v : VendorApi) (cfg : RunConfig) :
    IocState → ℤ → ℕ → IocState × List Ev
  | s, _, 0 => (s, [])
  | s, repeatIdx, n + 1 =>
    let r1 := loop_body v cfg s repeatIdx
    let r2 := run_loop v cfg r1.1 (repeatIdx + 1) n
    (r2.1, r1.2 ++ r2.2)

/-- LSiCorrelatorIOC.take_data: configure (RuntimeError reported and
swallowed), read the run parameters, set the already_started guard and
TAKING_DATA, run the repetitions, then clear TAKING_DATA and the guard and
reset START and START:SP.  A failure while reading the run parameters
escapes to the @_error_handler decorator, which logs it and leaves the state
as it stood. -/
def take_data (v : VendorApi) (s0 : IocState) : IocState × List Ev :=
  let tbl := theRecords v
  let r1 := configure_step s0
  match read_run_config tbl r1.1 with
  | .error _ => (r1.1, r1.2 ++ [.logMsg "traceback"])
  | .ok cfg =>
    let s2 : IocState := { r1.1 with already_started := true }
    let r3 := update_pv_and_write_to_device tbl s2 "TAKING_DATA" (.bool true) false
    let r4 := run_loop v cfg r3.1 1 cfg.no_repetitions.toNat
    let r5 := update_pv_and_write_to_device tbl r4.1 "TAKING_DATA" (.bool false) false
    let s6 : IocState := { r5.1 with already_started := false }
    let r7 := update_param_and_fields s6 "START" (.int 0)
    let r8 := update_param_and_fields r7.1 "START:SP" (.int 0)
    (r8.1, r1.2 ++ r3.2 ++ r4.2 ++ r5.2 ++ r7.2 ++ r8.2)

/-- Execution of a submitted work item by a pool worker. -/
def exec_task (v : VendorApi) (s : IocState) : IocTask → IocState × List Ev
  | .takeData => take_data v s
  | .updatePv reason value usp =>
      update_pv_and_write_to_device (theRecords v) s reason value usp

/-! ### Lemmas about PV names ending in :SP -/

/-- Appending the :SP suffix at the character level. -/
theorem data_append_sp (base : String) :
    (base ++ ":SP").data = base.data ++ [':', 'S', 'P'] := by
  rw [String.data_append]

/-- get_base_pv strips exactly the :SP suffix it is given. -/
theorem get_base_pv_append_sp (base : String) :
    get_base_pv (base ++ ":SP") = base := by
  unfold get_base_pv
  rw [data_append_sp]
  simp [List.take_left]

/-- A name with the :SP suffix ends with :SP. -/
theorem pyEndsWith_append_sp (base : String) :
    pyEndsWith (base ++ ":SP") ":SP" = true := by
  unfold pyEndsWith
  rw [data_append_sp]
  show List.isSuffixOf [':', 'S', 'P'] (base.data ++ [':', 'S', 'P']) = true
  simp [List.isSuffixOf]

/-- A setpoint alias is distinct from its base name. -/
theorem append_sp_ne (base : String) : base ++ ":SP" ≠ base := by
  intro h
  have hlen : (base ++ ":SP").data.length = base.data.length := by rw [h]
  rw [data_append_sp, List.length_append] at hlen
  simp only [List.length_cons, List.length_nil] at hlen
  omega

/-- C10: a read of a PV name ending in :SP returns the stored value of the
base PV (the name with the trailing :SP removed); the separately stored
setpoint parameter is never consulted, so overwriting the stored :SP entry
does not change what the read returns. -/
theorem setpoint_read_returns_base (s : IocState) (base : String) :
    IOC.read s (base ++ ":SP") = getParam s base ∧
    get_base_pv (base ++ ":SP") = base ∧
    ∀ v : Val,
      IOC.read { s with params := setParamF s.params (base ++ ":SP") v }
        (base ++ ":SP") = IOC.read s (base ++ ":SP") := by
  have hread : ∀ t : IocState, IOC.read t (base ++ ":SP") = t.params base := by
    intro t
    unfold IOC.read
    rw [pyEndsWith_append_sp, if_pos rfl, get_base_pv_append_sp]
    rfl
  refine ⟨hread s, get_base_pv_append_sp base, ?_⟩
  intro v
  rw [hread, hread]
  show setParamF s.params (base ++ ":SP") v base = s.params base
  unfold setParamF
  rw [if_neg]
  exact fun h => append_sp_ne base h.symm

/-! ### The data file writer (src/data_file_interaction.py, src/config.py) -/

/-- A data transfer object holding the measurement ndarrays
(data_file_interaction.DataArrays). -/
structure DataArrays where
  correlation : List PyFloat
  time_lags : List PyFloat
  trace_a : List PyFloat
  trace_b : List PyFloat
  trace_time : List PyFloat
deriving DecidableEq

/-- The scalar metadata snapshot consumed by the file template (the values of
the six metadata records collected by get_metadata). -/
structure Metadata where
  scattering_angle : ℚ
  duration : ℤ
  laser_wavelength : ℚ
  solvent_refractive_index : ℚ
  solvent_viscosity : ℚ
  sample_temp : ℚ
deriving DecidableEq

/-- Fixed-point decimal rendering with the given precision (the %.1f / %.3f /
%.6f conversions of the template and of np.savetxt). -/
def fmtFixed (prec : ℕ) (q : ℚ) : String :=
  let scaled : ℚ := q * ((10 : ℚ) ^ prec)
  let n := pyRoundQ scaled
  let a := n.natAbs
  let ip := a / 10 ^ prec
  let fp := a % 10 ^ prec
  let fpStr := toString fp
  let fpPad := String.mk (List.replicate (prec - fpStr.length) '0') ++ fpStr
  (if n < 0 then "-" else "") ++ toString ip ++
    (if prec = 0 then "" else "." ++ fpPad)

/-- Scientific-notation rendering with six fractional digits (the %1.6e
conversion used by np.savetxt for the correlation table). -/
def fmtSci (q : ℚ) : String :=
  if q = 0 then "0.000000e+00"
  else
    let a : ℚ := |q|
    let e : ℤ := Int.log 10 a
    let r : ℤ := pyRoundQ (a / (10 : ℚ) ^ e * 1000000)
    let re : ℤ × ℤ := if 10000000 ≤ r then (1000000, e + 1) else (r, e)
    let fp := (re.1 % 1000000).toNat
    let fpStr := toString fp
    let fpPad := String.mk (List.replicate (6 - fpStr.length) '0') ++ fpStr
    let es := if re.2 < 0 then "-" else "+"
    let eStr := toString re.2.natAbs
    let ePad := if eStr.length < 2 then "0" ++ eStr else eStr
    (if q < 0 then "-" else "") ++ toString (re.1 / 1000000) ++ "." ++ fpPad ++
      "e" ++ es ++ ePad

/-- numpy rendering of one float under %1.6e. -/
def npShow6e : PyFloat → String
  | .finite q => fmtSci q
  | .nan => "nan"
  | .inf => "inf"
  | .ninf => "-inf"

/-- numpy rendering of one float under %.6f. -/
def npShow6f : PyFloat → String
  | .finite q => fmtFixed 6 q
  | .nan => "nan"
  | .inf => "inf"
  | .ninf => "-inf"

/-- np.savetxt with a tab delimiter: one line per row, fields joined by tabs,
each line terminated by a newline. -/
def savetxt (fmt : PyFloat → String) (rows : List (List PyFloat)) : String :=
  String.join (rows.map fun row =>
    String.intercalate "\t" (row.map fmt) ++ "\n")

/-- np.mean on a float array (empty arrays and arrays mixing opposite
infinities or containing NaN give nan). -/
def npMean (xs : List PyFloat) : PyFloat :=
  if xs = [] then .nan
  else if xs.all PyFloat.isFinite then
    .finite ((xs.map fun x =>
      match x with
      | .finite q => q
      | _ => 0).sum / (xs.length : ℚ))
  else if xs.contains .nan || (xs.contains .inf && xs.contains .ninf) then .nan
  else if xs.contains .inf then .inf
  else .ninf

/-- config.Schema.FILE_SCHEME with its placeholders substituted (the Python
triple-quoted literal keeps the four-space indentation of its continuation
lines). -/
def fileScheme (dt sa dur wl ri vi te ca cb corrStr rawStr : String) : String :=
  dt ++ "\n    Pseudo Cross Correlation\n    Scattering angle:\t" ++ sa ++
    "\n    Duration (s):\t" ++ dur ++
    "\n    Wavelength (nm):\t" ++ wl ++
    "\n    Refractive index:\t" ++ ri ++
    "\n    Viscosity (mPas):\t" ++ vi ++
    "\n    Temperature (K):\t" ++ te ++
    "\n    Laser intensity (mW):\t0.0" ++
    "\n    Average Count rate  A (kHz):\t" ++ ca ++
    "\n    Average Count rate  B (kHz):\t" ++ cb ++
    "\n    Intercept:\t1.0000" ++
    "\n    Cumulant 1st\t-Inf" ++
    "\n    Cumulant 2nd\t-Inf\tNaN" ++
    "\n    Cumulant 3rd\t-Inf\tNaN" ++
    "\n\n    Lag time (s)         g2-1\n    " ++ corrStr ++
    "\n    Count Rate History (KHz)  CR CHA / CR CHB\n    " ++ rawStr

/-- A file destination: the list of chunks written to it so far. -/
structure DataFile where
  data_arrays : DataArrays
  user_file : List String
  archive_file : List String
  metadata : Metadata
  save_file : String

/-- DataFile.create_file_data: builds the object, formats the correlation and
raw-channel tables (`_format_correlation_and_raw_channel_data`) and renders
the single textual payload (`_structure_file_data`); `now` is the timestamp
string taken from the clock. -/
def DataFile.create_file_data (data_arrays : DataArrays)
    (user_file archive_file : List String) (metadata : Metadata)
    (now : String) : DataFile :=
  let correlation_string := savetxt npShow6e
    ((data_arrays.time_lags.zip data_arrays.correlation).map
      fun p => [p.1, p.2])
  let raw_channel_data_string := savetxt npShow6f
    (((data_arrays.trace_time.zip data_arrays.trace_a).zip
        data_arrays.trace_b).map fun p => [p.1.1, p.1.2, p.2])
  let save_file := fileScheme now
    (fmtFixed 1 metadata.scattering_angle)
    (toString metadata.duration)
    (fmtFixed 1 metadata.laser_wavelength)
    (fmtFixed 3 metadata.solvent_refractive_index)
    (fmtFixed 3 metadata.solvent_viscosity)
    (fmtFixed 1 metadata.sample_temp)
    (npShow6f (npMean data_arrays.trace_a))
    (npShow6f (npMean data_arrays.trace_b))
    correlation_string
    raw_channel_data_string
  ⟨data_arrays, user_file, archive_file, metadata, save_file⟩

/-- DataFile.write_to_file: `for dat_file in [self.user_file,
self.archive_file]: dat_file.write(self.save_file)`. -/
def DataFile.write_to_file (df : DataFile) : DataFile :=
  { df with
      user_file := df.user_file ++ [df.save_file],
      archive_file := df.archive_file ++ [df.save_file] }

/-- C7: one save operation appends the same single payload to the user
destination and to the archive destination — the content newly written to
the two destinations is byte-identical, the outputs differing only in which
destination holds them. -/
theorem save_writes_identical_content (data_arrays : DataArrays)
    (user_file archive_file : List String) (metadata : Metadata)
    (now : String) :
    ((DataFile.create_file_data data_arrays user_file archive_file metadata
        now).write_to_file.user_file =
      user_file ++ [(DataFile.create_file_data data_arrays user_file
        archive_file metadata now).save_file]) ∧
    ((DataFile.create_file_data data_arrays user_file archive_file metadata
        now).write_to_file.archive_file =
      archive_file ++ [(DataFile.create_file_data data_arrays user_file
        archive_file metadata now).save_file]) ∧
    ((DataFile.create_file_data data_arrays user_file archive_file metadata
        now).write_to_file.user_file.drop user_file.length =
      (DataFile.create_file_data data_arrays user_file archive_file metadata
        now).write_to_file.archive_file.drop archive_file.length) := by
  refine ⟨rfl, rfl, ?_⟩
  show (user_file ++ [_]).drop user_file.length =
    (archive_file ++ [_]).drop archive_file.length
  rw [List.drop_left, List.drop_left]

/-! ### String key disequalities and parameter-table lemmas -/

/-- Appending a suffix whose characters do not end the target string never
produces that string. -/
theorem append_ne_of_suffix_ne (a t c : String)
    (h : c.data.drop (c.data.length - t.data.length) ≠ t.data) : a ++ t ≠ c := by
  intro he
  apply h
  rw [← he, String.data_append]
  have hl : (a.data ++ t.data).length - t.data.length = a.data.length := by simp
  rw [hl, List.drop_left]

/-- String append cancels on the right. -/
theorem str_append_right_cancel {a b t : String} (h : a ++ t = b ++ t) :
    a = b := by
  have hd : a.data ++ t.data = b.data ++ t.data := by
    rw [← String.data_append, ← String.data_append, h]
  have hdd := List.append_cancel_right hd
  cases a
  cases b
  exact congrArg String.mk hdd

/-- Appending a nonempty suffix changes the string. -/
theorem str_append_ne_self (a t : String) (ht : t.data.length ≠ 0) :
    a ++ t ≠ a := by
  intro he
  have hl : (a ++ t).data.length = a.data.length := by rw [he]
  rw [String.data_append, List.length_append] at hl
  omega

/-- Reading the key just written. -/
theorem setParamF_self (p : String → Val) (k : String) (v : Val) :
    setParamF p k v k = v := by
  simp [setParamF]

/-- Reading a different key is unaffected. -/
theorem setParamF_ne (p : String → Val) (k : String) (v : Val) (k2 : String)
    (h : k2 ≠ k) : setParamF p k v k2 = p k2 := by
  simp [setParamF, h]

/-- Reading the status just stamped. -/
theorem setStatusF_self (p : String → AlarmPair) (k : String) (a : AlarmPair) :
    setStatusF p k a k = a := by
  simp [setStatusF]

/-- Reading a different status is unaffected. -/
theorem setStatusF_ne (p : String → AlarmPair) (k : String) (a : AlarmPair)
    (k2 : String) (h : k2 ≠ k) : setStatusF p k a k2 = p k2 := by
  simp [setStatusF, h]

/-- Computing the .VAL key of ERRORMSG. -/
theorem errormsg_val_key : "ERRORMSG" ++ ".VAL" = "ERRORMSG.VAL" := rfl

/-- C2 (amended): a rejected register write never mutates the register, its
.VAL mirror or its :SP mirror.  When the device setter raises a
ValueError-class error, ERRORMSG records the error text; when one of the two
input conversions fails, the exception is swallowed by the _error_handler
decorator and nothing at all changes — in particular ERRORMSG is not
updated.  On an accepted write through the setpoint path, the :SP mirror
receives exactly the device-accepted value. -/
theorem register_write_rejection (tbl : String → Option Rec) (s : IocState)
    (reason : String) (value : Val) (update_setpoint : Bool) (record : Rec)
    (hrec : tbl reason = some record)
    (hr1 : reason ≠ "ERRORMSG") (hr2 : reason ≠ "ERRORMSG.VAL") :
    (∀ e, record.convert_from_pv value = .error e →
      (update_pv_and_write_to_device tbl s reason value update_setpoint).1 = s) ∧
    (∀ v1 e, record.convert_from_pv value = .ok v1 →
      record.convert_to_pv v1 = .error e →
      (update_pv_and_write_to_device tbl s reason value update_setpoint).1 = s) ∧
    (∀ v1 v2 msg, record.convert_from_pv value = .ok v1 →
      record.convert_to_pv v1 = .ok v2 →
      record.set_on_device s.device v1 = .error (.valueError msg) →
      ((update_pv_and_write_to_device tbl s reason value
          update_setpoint).1.params "ERRORMSG" = .str msg ∧
       (update_pv_and_write_to_device tbl s reason value
          update_setpoint).1.params reason = s.params reason ∧
       (update_pv_and_write_to_device tbl s reason value
          update_setpoint).1.params (reason ++ ".VAL") =
         s.params (reason ++ ".VAL") ∧
       (update_pv_and_write_to_device tbl s reason value
          update_setpoint).1.params (reason ++ ":SP") =
         s.params (reason ++ ":SP") ∧
       (update_pv_and_write_to_device tbl s reason value
          update_setpoint).1.params (reason ++ ":SP" ++ ".VAL") =
         s.params (reason ++ ":SP" ++ ".VAL") ∧
       (update_pv_and_write_to_device tbl s reason value
          update_setpoint).1.device = s.device)) ∧
    (∀ v1 v2 dev2, record.convert_from_pv value = .ok v1 →
      record.convert_to_pv v1 = .ok v2 →
      record.set_on_device s.device v1 = .ok dev2 →
      update_setpoint = true →
      (update_pv_and_write_to_device tbl s reason value
        update_setpoint).1.params (reason ++ ":SP") = v2) := by
  have hvalSelf : ∀ a : String, a ≠ a ++ ".VAL" :=
    fun a => (str_append_ne_self a ".VAL" (by decide)).symm
  have hEV : ("ERRORMSG" : String) ≠ "ERRORMSG" ++ ".VAL" := hvalSelf _
  have hRerr : reason ≠ "ERRORMSG" ++ ".VAL" := by rw [errormsg_val_key]; exact hr2
  have hRV1 : reason ++ ".VAL" ≠ "ERRORMSG" :=
    append_ne_of_suffix_ne reason ".VAL" "ERRORMSG" (by decide)
  have hRV2 : reason ++ ".VAL" ≠ "ERRORMSG" ++ ".VAL" := by
    intro h
    exact hr1 (str_append_right_cancel h)
  have hSP1 : reason ++ ":SP" ≠ "ERRORMSG" :=
    append_ne_of_suffix_ne reason ":SP" "ERRORMSG" (by decide)
  have hSP2 : reason ++ ":SP" ≠ "ERRORMSG" ++ ".VAL" := by
    rw [errormsg_val_key]
    exact append_ne_of_suffix_ne reason ":SP" "ERRORMSG.VAL" (by decide)
  have hSPV1 : reason ++ ":SP" ++ ".VAL" ≠ "ERRORMSG" :=
    append_ne_of_suffix_ne (reason ++ ":SP") ".VAL" "ERRORMSG" (by decide)
  have hSPV2 : reason ++ ":SP" ++ ".VAL" ≠ "ERRORMSG" ++ ".VAL" := by
    intro h
    exact (append_ne_of_suffix_ne reason ":SP" "ERRORMSG" (by decide))
      (str_append_right_cancel h)
  refine ⟨?_, ?_, ?_, ?_⟩
  · intro e hcv
    simp only [update_pv_and_write_to_device, hrec, hcv]
  · intro v1 e h1 h2
    simp only [update_pv_and_write_to_device, hrec, h1, h2]
  · intro v1 v2 msg h1 h2 h3
    simp only [update_pv_and_write_to_device, hrec, h1, h2, h3,
      update_error_pv_print_and_log, errormsg_update,
      update_param_and_fields]
    refine ⟨?_, ?_, ?_, ?_, ?_, trivial⟩
    · rw [setParamF_ne _ _ _ _ hEV, setParamF_self]
    · rw [setParamF_ne _ _ _ _ hRerr, setParamF_ne _ _ _ _ hr1,
        setParamF_ne _ _ _ _ hRerr, setParamF_ne _ _ _ _ hr1]
    · rw [setParamF_ne _ _ _ _ hRV2, setParamF_ne _ _ _ _ hRV1,
        setParamF_ne _ _ _ _ hRV2, setParamF_ne _ _ _ _ hRV1]
    · rw [setParamF_ne _ _ _ _ hSP2, setParamF_ne _ _ _ _ hSP1,
        setParamF_ne _ _ _ _ hSP2, setParamF_ne _ _ _ _ hSP1]
    · rw [setParamF_ne _ _ _ _ hSPV2, setParamF_ne _ _ _ _ hSPV1,
        setParamF_ne _ _ _ _ hSPV2, setParamF_ne _ _ _ _ hSPV1]
  · intro v1 v2 dev2 h1 h2 h3 husp
    simp only [update_pv_and_write_to_device, hrec, h1, h2, h3, husp,
      update_param_and_fields, if_true]
    rw [setParamF_ne _ _ _ _ (hvalSelf (reason ++ ":SP")), setParamF_self]

/-- A vendor API whose setters all accept every value (concrete instance for
evaluating the model; the LSI_Param member lists are placeholders for the
external vendor enums). -/
def okVendor : VendorApi :=
  ⟨["AUTO", "CROSS"], ["COMPENSATED", "SYMMETRIC"], ["ChA_ChB", "ChB_ChA"],
   ["ns200", "ns400"], ["ms100", "ms700"],
   null_device_setter, null_device_setter, null_device_setter,
   null_device_setter, null_device_setter, null_device_setter,
   null_device_setter, null_device_setter, null_device_setter⟩

/-- A vendor API whose measurement-duration setter rejects every value with a
ValueError. -/
def rejectingVendor : VendorApi :=
  { okVendor with
      setMeasurementDuration := fun _ _ => .error (.valueError "bad duration") }

/-- A concrete device handle that has done nothing yet and never returns
data. -/
def cexDevice : DeviceState := ⟨0, 0, none, fun _ => none⟩

/-- A concrete driver state whose parameter table holds empty strings and no
alarms. -/
def cexState : IocState :=
  ⟨fun _ => .str "", fun _ => ⟨.noAlarm, .noAlarm⟩, .noAlarm, .noAlarm, false,
   cexDevice, [], [], false, true, "C:/Data/"⟩

/-- C2 counterexample: writing the non-numeric value "bad" to
MEASUREMENTDURATION (a register with a device write-through) is rejected by
its round() conversion, yet after the write ERRORMSG still holds its initial
empty string — the conversion failure is not recorded in ERRORMSG,
contradicting the claim as stated. -/
theorem register_write_rejection_cex :
    (match theRecords okVendor "MEASUREMENTDURATION" with
     | some record => record.convert_from_pv (.str "bad")
     | none => .ok .pyNone) =
      .error (.typeError "type cannot be interpreted as an integer") ∧
    (update_pv_and_write_to_device (theRecords okVendor) cexState
      "MEASUREMENTDURATION" (.str "bad") true).1.params "ERRORMSG" =
      .str "" := by
  constructor
  · rfl
  · rfl

/-- C2 witness: the amended theorem applied to a concrete write rejected by
the device setter. -/
theorem register_write_rejection_witness :
    (update_pv_and_write_to_device (theRecords rejectingVendor) cexState
      "MEASUREMENTDURATION" (.int 5) true).1.params "ERRORMSG" =
      .str "bad duration" :=
  ((register_write_rejection (theRecords rejectingVendor) cexState
      "MEASUREMENTDURATION" (.int 5) true
      ⟨"MEASUREMENTDURATION", true, pyRound, do_nothing,
        rejectingVendor.setMeasurementDuration⟩
      rfl (by decide) (by decide)).2.2.1 (.int 5) (.int 5)
      "bad duration" (by rfl) (by rfl) (by rfl)).1

/-! ### Record lookups used inside the measurement run -/

/-- Looking up the START record. -/
theorem theRecords_START (v : VendorApi) : theRecords v "START" =
    some ⟨"START", true, bool_from_pv, do_nothing, null_device_setter⟩ := rfl

/-- Looking up the WAITING record. -/
theorem theRecords_WAITING (v : VendorApi) : theRecords v "WAITING" =
    some ⟨"WAITING", false, bool_from_pv, do_nothing, null_device_setter⟩ := rfl

/-- Looking up the RUNNING record. -/
theorem theRecords_RUNNING (v : VendorApi) : theRecords v "RUNNING" =
    some ⟨"RUNNING", false, bool_from_pv, do_nothing, null_device_setter⟩ := rfl

/-- Looking up the CONNECTED record. -/
theorem theRecords_CONNECTED (v : VendorApi) : theRecords v "CONNECTED" =
    some ⟨"CONNECTED", false, bool_from_pv, do_nothing, null_device_setter⟩ := rfl

/-- Looking up the TAKING_DATA record. -/
theorem theRecords_TAKING_DATA (v : VendorApi) : theRecords v "TAKING_DATA" =
    some ⟨"TAKING_DATA", false, bool_from_pv, do_nothing, null_device_setter⟩ := rfl

/-- Looking up the CURRENT_REPETITION record. -/
theorem theRecords_CURRENT_REPETITION (v : VendorApi) :
    theRecords v "CURRENT_REPETITION" =
    some ⟨"CURRENT_REPETITION", false, do_nothing, do_nothing,
      null_device_setter⟩ := rfl

/-- Looking up the REPETITIONS record. -/
theorem theRecords_REPETITIONS (v : VendorApi) : theRecords v "REPETITIONS" =
    some ⟨"REPETITIONS", true, pyRound, do_nothing, null_device_setter⟩ := rfl

/-- Looking up the WAIT record. -/
theorem theRecords_WAIT (v : VendorApi) : theRecords v "WAIT" =
    some ⟨"WAIT", true, pyRound, do_nothing, null_device_setter⟩ := rfl

/-- Looking up the WAIT_AT_START record. -/
theorem theRecords_WAIT_AT_START (v : VendorApi) :
    theRecords v "WAIT_AT_START" =
    some ⟨"WAIT_AT_START", true, bool_from_pv, do_nothing,
      null_device_setter⟩ := rfl

/-- Looking up the MIN_TIME_LAG record. -/
theorem theRecords_MIN_TIME_LAG (v : VendorApi) : theRecords v "MIN_TIME_LAG" =
    some ⟨"MIN_TIME_LAG", true, pyRound, do_nothing, null_device_setter⟩ := rfl

/-- Looking up the CORRELATION_FUNCTION record. -/
theorem theRecords_CORRELATION_FUNCTION (v : VendorApi) :
    theRecords v "CORRELATION_FUNCTION" =
    some ⟨"CORRELATION_FUNCTION", false, do_nothing, do_nothing,
      null_device_setter⟩ := rfl

/-- Looking up the LAGS record. -/
theorem theRecords_LAGS (v : VendorApi) : theRecords v "LAGS" =
    some ⟨"LAGS", false, do_nothing, do_nothing, null_device_setter⟩ := rfl

/-- Looking up the OUTPUTFILE record. -/
theorem theRecords_OUTPUTFILE (v : VendorApi) : theRecords v "OUTPUTFILE" =
    some ⟨"OUTPUTFILE", false, do_nothing, do_nothing, null_device_setter⟩ := rfl

/-! ### Normal forms for the parameter updates of the measurement run -/

/-- A record write with total conversions and the no-op device setter reduces
to the plain parameter update (and, through the setpoint path, to the two of
them). -/
theorem update_pv_of_simple (tbl : String → Option Rec) (s : IocState)
    (reason : String) (value : Val) (record : Rec) (v1 v2 : Val)
    (hrec : tbl reason = some record)
    (h1 : record.convert_from_pv value = .ok v1)
    (h2 : record.convert_to_pv v1 = .ok v2)
    (h3 : record.set_on_device s.device v1 = .ok s.device) :
    update_pv_and_write_to_device tbl s reason value false =
      update_param_and_fields s reason v2 := by
  simp only [update_pv_and_write_to_device, hrec, h1, h2, h3]
  rfl

/-- The WAITING write as performed inside wait(). -/
theorem update_WAITING (v : VendorApi) (s : IocState) (b : Bool) :
    update_pv_and_write_to_device (theRecords v) s "WAITING" (.bool b) false =
      update_param_and_fields s "WAITING" (.bool b) :=
  update_pv_of_simple _ _ _ _ _ (.bool b) (.bool b)
    (theRecords_WAITING v) rfl rfl rfl

/-- The RUNNING write as performed inside the loop body. -/
theorem update_RUNNING (v : VendorApi) (s : IocState) (b : Bool) :
    update_pv_and_write_to_device (theRecords v) s "RUNNING" (.bool b) false =
      update_param_and_fields s "RUNNING" (.bool b) :=
  update_pv_of_simple _ _ _ _ _ (.bool b) (.bool b)
    (theRecords_RUNNING v) rfl rfl rfl

/-- The CONNECTED write as performed in the disconnect branch. -/
theorem update_CONNECTED (v : VendorApi) (s : IocState) (b : Bool) :
    update_pv_and_write_to_device (theRecords v) s "CONNECTED" (.bool b) false =
      update_param_and_fields s "CONNECTED" (.bool b) :=
  update_pv_of_simple _ _ _ _ _ (.bool b) (.bool b)
    (theRecords_CONNECTED v) rfl rfl rfl

/-- The TAKING_DATA write at the boundaries of the run. -/
theorem update_TAKING_DATA (v : VendorApi) (s : IocState) (b : Bool) :
    update_pv_and_write_to_device (theRecords v) s "TAKING_DATA" (.bool b)
      false = update_param_and_fields s "TAKING_DATA" (.bool b) :=
  update_pv_of_simple _ _ _ _ _ (.bool b) (.bool b)
    (theRecords_TAKING_DATA v) rfl rfl rfl

/-- The CURRENT_REPETITION write at the top of each repetition. -/
theorem update_CURRENT_REPETITION (v : VendorApi) (s : IocState) (r : ℤ) :
    update_pv_and_write_to_device (theRecords v) s "CURRENT_REPETITION"
      (.int r) false = update_param_and_fields s "CURRENT_REPETITION" (.int r) :=
  update_pv_of_simple _ _ _ _ _ (.int r) (.int r)
    (theRecords_CURRENT_REPETITION v) rfl rfl rfl

/-- The CORRELATION_FUNCTION array write. -/
theorem update_CORRELATION_FUNCTION (v : VendorApi) (s : IocState)
    (xs : List PyFloat) :
    update_pv_and_write_to_device (theRecords v) s "CORRELATION_FUNCTION"
      (.arr xs) false =
      update_param_and_fields s "CORRELATION_FUNCTION" (.arr xs) :=
  update_pv_of_simple _ _ _ _ _ (.arr xs) (.arr xs)
    (theRecords_CORRELATION_FUNCTION v) rfl rfl rfl

/-- The LAGS array write. -/
theorem update_LAGS (v : VendorApi) (s : IocState) (xs : List PyFloat) :
    update_pv_and_write_to_device (theRecords v) s "LAGS" (.arr xs) false =
      update_param_and_fields s "LAGS" (.arr xs) :=
  update_pv_of_simple _ _ _ _ _ (.arr xs) (.arr xs)
    (theRecords_LAGS v) rfl rfl rfl

/-- The OUTPUTFILE write performed while composing the user filename. -/
theorem update_OUTPUTFILE (v : VendorApi) (s : IocState) (f : String) :
    update_pv_and_write_to_device (theRecords v) s "OUTPUTFILE" (.str f)
      false = update_param_and_fields s "OUTPUTFILE" (.str f) :=
  update_pv_of_simple _ _ _ _ _ (.str f) (.str f)
    (theRecords_OUTPUTFILE v) rfl rfl rfl

/-! ### Component lemmas for the run analysis -/

/-- update_param_and_fields only touches the parameter and status tables. -/
@[simp]
theorem update_param_and_fields_device (s : IocState) (reason : String)
    (value : Val) : (update_param_and_fields s reason value).1.device =
      s.device := rfl

/-- The alarm status field is untouched by a parameter update. -/
@[simp]
theorem update_param_and_fields_alarm_status (s : IocState) (reason : String)
    (value : Val) : (update_param_and_fields s reason value).1.alarm_status =
      s.alarm_status := rfl

/-- The alarm severity field is untouched by a parameter update. -/
@[simp]
theorem update_param_and_fields_alarm_severity (s : IocState)
    (reason : String) (value : Val) :
    (update_param_and_fields s reason value).1.alarm_severity =
      s.alarm_severity := rfl

/-- The re-entrancy guard is untouched by a parameter update. -/
@[simp]
theorem update_param_and_fields_already_started (s : IocState)
    (reason : String) (value : Val) :
    (update_param_and_fields s reason value).1.already_started =
      s.already_started := rfl

/-- The driver has_data flag is untouched by a parameter update. -/
@[simp]
theorem update_param_and_fields_has_data (s : IocState) (reason : String)
    (value : Val) : (update_param_and_fields s reason value).1.has_data =
      s.has_data := rfl

/-- The driver correlation array is untouched by a parameter update. -/
@[simp]
theorem update_param_and_fields_drvCorr (s : IocState) (reason : String)
    (value : Val) : (update_param_and_fields s reason value).1.drvCorr =
      s.drvCorr := rfl

/-- The driver lags array is untouched by a parameter update. -/
@[simp]
theorem update_param_and_fields_drvLags (s : IocState) (reason : String)
    (value : Val) : (update_param_and_fields s reason value).1.drvLags =
      s.drvLags := rfl

/-- Parameter lookups after update_param_and_fields. -/
@[simp]
theorem update_param_and_fields_params (s : IocState) (reason : String)
    (value : Val) (k : String) :
    (update_param_and_fields s reason value).1.params k =
      if k = reason ++ ".VAL" then value
      else if k = reason then value else s.params k := by
  simp [update_param_and_fields, setParamF]

/-- Status lookups after update_param_and_fields. -/
@[simp]
theorem update_param_and_fields_statuses (s : IocState) (reason : String)
    (value : Val) (k : String) :
    (update_param_and_fields s reason value).1.statuses k =
      if k = reason then (⟨s.alarm_status, s.alarm_severity⟩ : AlarmPair)
      else s.statuses k := by
  simp [update_param_and_fields, setStatusF]

/-- The events of update_param_and_fields. -/
@[simp]
theorem update_param_and_fields_events (s : IocState) (reason : String)
    (value : Val) : (update_param_and_fields s reason value).2 =
      [.paramSet reason value, .paramSet (reason ++ ".VAL") value,
       .statusSet reason ⟨s.alarm_status, s.alarm_severity⟩] := rfl

/-- The device after one driver acquisition: one more start. -/
@[simp]
theorem driver_take_data_device (s : IocState) (m : ℚ) :
    (driver_take_data s m).1.device =
      { s.device with startCount := s.device.startCount + 1 } := by
  cases h : s.device.acq s.device.startCount <;> simp [driver_take_data, h]

/-- The events of one driver acquisition: exactly its device start. -/
@[simp]
theorem driver_take_data_events (s : IocState) (m : ℚ) :
    (driver_take_data s m).2 = [.deviceStart s.device.startCount] := by
  cases h : s.device.acq s.device.startCount <;> simp [driver_take_data, h]

/-- A driver acquisition does not touch the parameter table. -/
@[simp]
theorem driver_take_data_params (s : IocState) (m : ℚ) :
    (driver_take_data s m).1.params = s.params := by
  cases h : s.device.acq s.device.startCount <;> simp [driver_take_data, h]

/-- A driver acquisition does not touch the status table. -/
@[simp]
theorem driver_take_data_statuses (s : IocState) (m : ℚ) :
    (driver_take_data s m).1.statuses = s.statuses := by
  cases h : s.device.acq s.device.startCount <;> simp [driver_take_data, h]

/-- A driver acquisition does not touch the alarm status. -/
@[simp]
theorem driver_take_data_alarm_status (s : IocState) (m : ℚ) :
    (driver_take_data s m).1.alarm_status = s.alarm_status := by
  cases h : s.device.acq s.device.startCount <;> simp [driver_take_data, h]

/-- A driver acquisition does not touch the alarm severity. -/
@[simp]
theorem driver_take_data_alarm_severity (s : IocState) (m : ℚ) :
    (driver_take_data s m).1.alarm_severity = s.alarm_severity := by
  cases h : s.device.acq s.device.startCount <;> simp [driver_take_data, h]

/-- has_data after one acquisition states whether the device returned data. -/
@[simp]
theorem driver_take_data_has_data (s : IocState) (m : ℚ) :
    (driver_take_data s m).1.has_data =
      (s.device.acq s.device.startCount).isSome := by
  cases h : s.device.acq s.device.startCount <;> simp [driver_take_data, h]

/-- set_disconnected_alarms does not touch the parameter table. -/
@[simp]
theorem set_disconnected_alarms_params (s : IocState) (b : Bool) :
    (set_disconnected_alarms s b).1.params = s.params := rfl

/-- set_disconnected_alarms emits the single broadcast event. -/
@[simp]
theorem set_disconnected_alarms_events (s : IocState) :
    (set_disconnected_alarms s true).2 =
      [.alarmBroadcast ⟨.timeoutAlarm, .invalidAlarm⟩] := rfl

/-- The alarm status after a disconnect broadcast. -/
@[simp]
theorem set_disconnected_alarms_alarm_status (s : IocState) :
    (set_disconnected_alarms s true).1.alarm_status = .timeoutAlarm := rfl

/-- The alarm severity after a disconnect broadcast. -/
@[simp]
theorem set_disconnected_alarms_alarm_severity (s : IocState) :
    (set_disconnected_alarms s true).1.alarm_severity = .invalidAlarm := rfl

/-- The device handle after a disconnect broadcast. -/
@[simp]
theorem set_disconnected_alarms_device (s : IocState) (b : Bool) :
    (set_disconnected_alarms s b).1.device = s.device := rfl

/-- Folding the same stamp over a name list: members of the list read the
stamp, others are untouched. -/
theorem foldl_setStatusF (l : List String) (p0 : String → AlarmPair)
    (a : AlarmPair) (k : String) :
    (l.foldl (fun acc n => setStatusF acc n a) p0) k =
      if k ∈ l then a else p0 k := by
  induction l generalizing p0 with
  | nil => simp
  | cons h t ih =>
    simp only [List.foldl_cons, ih, List.mem_cons]
    rcases eq_or_ne k h with rfl | hne
    · simp [setStatusF]
    · simp only [setStatusF, if_neg hne]
      rcases em (k ∈ t) with hm | hm
      · simp [hm]
      · simp [hm, hne]

/-- Status lookups after a disconnect broadcast. -/
@[simp]
theorem set_disconnected_alarms_statuses (s : IocState) (k : String) :
    (set_disconnected_alarms s true).1.statuses k =
      if k ∈ RECORDS_LIST then (⟨.timeoutAlarm, .invalidAlarm⟩ : AlarmPair)
      else s.statuses k := by
  show (RECORDS_LIST.foldl
    (fun acc n => setStatusF acc n ⟨.timeoutAlarm, .invalidAlarm⟩) s.statuses) k = _
  exact foldl_setStatusF _ _ _ _

/-! ### Loop body analysis -/

/-- One repetition of the loop starts the device exactly once. -/
theorem loop_body_starts (v : VendorApi) (cfg : RunConfig) (s : IocState)
    (r : ℤ) : (loop_body v cfg s r).2.countP Ev.isStart = 1 := by
  unfold loop_body
  simp only [wait, save_step, set_array_pv_value, update_CURRENT_REPETITION,
    update_WAITING, update_RUNNING, update_CONNECTED,
    update_CORRELATION_FUNCTION, update_LAGS, update_OUTPUTFILE,
    update_error_pv_print_and_log, errormsg_update,
    update_param_and_fields_events, driver_take_data_events,
    set_disconnected_alarms_events]
  split <;> split <;>
    simp [List.countP_append, List.countP_cons, Ev.isStart]

/-- The disconnect alarm pair is stamped everywhere: the shared alarm state
is TIMEOUT/INVALID and every record of the catalog carries it. -/
def AlarmsStamped (s : IocState) : Prop :=
  s.alarm_status = .timeoutAlarm ∧ s.alarm_severity = .invalidAlarm ∧
  ∀ name ∈ RECORDS_LIST, s.statuses name =
    (⟨.timeoutAlarm, .invalidAlarm⟩ : AlarmPair)

/-- Parameter updates re-stamp the shared alarm pair, so they preserve the
stamped state. -/
theorem update_param_and_fields_alarms (s : IocState) (reason : String)
    (value : Val) (h : AlarmsStamped s) :
    AlarmsStamped (update_param_and_fields s reason value).1 := by
  obtain ⟨h1, h2, h3⟩ := h
  refine ⟨by simp [h1], by simp [h2], ?_⟩
  intro name hm
  rw [update_param_and_fields_statuses]
  split
  · simp [h1, h2]
  · exact h3 name hm

/-- Any register write preserves the stamped state. -/
theorem update_pv_alarms (tbl : String → Option Rec) (s : IocState)
    (reason : String) (value : Val) (usp : Bool) (h : AlarmsStamped s) :
    AlarmsStamped (update_pv_and_write_to_device tbl s reason value usp).1 := by
  unfold update_pv_and_write_to_device
  split
  · exact update_param_and_fields_alarms _ _ _ h
  · split
    · exact h
    · split
      · exact h
      · split
        · exact update_param_and_fields_alarms _ _ _
            (update_param_and_fields_alarms _ _ _ h)
        · exact h
        · split
          · exact update_param_and_fields_alarms _ _ _
              (update_param_and_fields_alarms _ _ _ h)
          · exact update_param_and_fields_alarms _ _ _ h

/-- A driver acquisition preserves the stamped state. -/
theorem driver_take_data_alarms (s : IocState) (m : ℚ) (h : AlarmsStamped s) :
    AlarmsStamped (driver_take_data s m).1 := by
  obtain ⟨h1, h2, h3⟩ := h
  refine ⟨?_, ?_, ?_⟩
  · rw [driver_take_data_alarm_status]; exact h1
  · rw [driver_take_data_alarm_severity]; exact h2
  · rw [driver_take_data_statuses]; exact h3

/-- The disconnect broadcast establishes the stamped state. -/
theorem set_disconnected_alarms_stamps (s : IocState) :
    AlarmsStamped (set_disconnected_alarms s true).1 := by
  refine ⟨rfl, rfl, ?_⟩
  intro name hm
  simp [hm]

/-- An array-PV write preserves the stamped state. -/
theorem set_array_pv_value_alarms (tbl : String → Option Rec) (s : IocState)
    (reason : String) (xs : List PyFloat) (h : AlarmsStamped s) :
    AlarmsStamped (set_array_pv_value tbl s reason xs).1 :=
  update_pv_alarms tbl s reason (.arr xs) false h

/-- Replacing the parameter table does not affect the stamped state. -/
theorem alarms_set_params (s : IocState) (p : String → Val)
    (h : AlarmsStamped s) : AlarmsStamped { s with params := p } :=
  ⟨h.1, h.2.1, h.2.2⟩

/-- Toggling the re-entrancy guard does not affect the stamped state. -/
theorem alarms_set_already_started (s : IocState) (b : Bool)
    (h : AlarmsStamped s) : AlarmsStamped { s with already_started := b } :=
  ⟨h.1, h.2.1, h.2.2⟩

/-- The wait step preserves the stamped state. -/
theorem wait_alarms (tbl : String → Option Rec) (s : IocState) (w : ℤ)
    (h : AlarmsStamped s) : AlarmsStamped (wait tbl s w).1 :=
  update_pv_alarms _ _ _ _ _ (update_pv_alarms _ _ _ _ _ h)

/-- The save step preserves the stamped state. -/
theorem save_step_alarms (tbl : String → Option Rec) (s : IocState) (r : ℤ)
    (h : AlarmsStamped s) : AlarmsStamped (save_step tbl s r).1 :=
  update_pv_alarms _ _ _ _ _ h

/-- The error reporter preserves the stamped state. -/
theorem update_error_alarms (s : IocState) (msg : String)
    (h : AlarmsStamped s) :
    AlarmsStamped (update_error_pv_print_and_log s msg).1 :=
  update_param_and_fields_alarms _ _ _ h

/-- A repetition of the loop preserves the stamped state. -/
theorem loop_body_alarms (v : VendorApi) (cfg : RunConfig) (s : IocState)
    (r : ℤ) (h : AlarmsStamped s) :
    AlarmsStamped (loop_body v cfg s r).1 := by
  unfold loop_body
  split
  all_goals cases hacq : s.device.acq s.device.startCount
  all_goals simp only [wait, save_step,
    update_CURRENT_REPETITION, update_WAITING, update_RUNNING,
    update_CONNECTED, update_OUTPUTFILE,
    update_error_pv_print_and_log, errormsg_update,
    update_param_and_fields_has_data, driver_take_data_has_data,
    update_param_and_fields_device, hacq, Option.isSome_none,
    Option.isSome_some, Bool.false_eq_true, if_false, if_true]
  · exact set_disconnected_alarms_stamps _
  · repeat
      first
        | exact h
        | apply update_param_and_fields_alarms
        | apply set_array_pv_value_alarms
        | apply driver_take_data_alarms
  · exact set_disconnected_alarms_stamps _
  · repeat
      first
        | exact h
        | apply update_param_and_fields_alarms
        | apply set_array_pv_value_alarms
        | apply driver_take_data_alarms

/-- A repetition whose acquisition returns no data establishes the stamped
state. -/
theorem loop_body_alarms_establish (v : VendorApi) (cfg : RunConfig)
    (s : IocState) (r : ℤ)
    (hnone : s.device.acq s.device.startCount = none) :
    AlarmsStamped (loop_body v cfg s r).1 := by
  unfold loop_body
  split
  all_goals simp only [wait, update_CURRENT_REPETITION, update_WAITING,
    update_RUNNING, update_param_and_fields_has_data,
    driver_take_data_has_data, update_param_and_fields_device, hnone,
    Option.isSome_none, Bool.false_eq_true, if_false]
  all_goals exact set_disconnected_alarms_stamps _

/-- One repetition advances the device by exactly one start and touches
nothing else on the device. -/
theorem loop_body_device (v : VendorApi) (cfg : RunConfig) (s : IocState)
    (r : ℤ) : (loop_body v cfg s r).1.device =
      { s.device with startCount := s.device.startCount + 1 } := by
  unfold loop_body
  split
  all_goals cases hacq : s.device.acq s.device.startCount
  all_goals simp [wait, save_step, set_array_pv_value,
    update_CURRENT_REPETITION, update_WAITING, update_RUNNING,
    update_CONNECTED, update_OUTPUTFILE, update_CORRELATION_FUNCTION,
    update_LAGS, update_error_pv_print_and_log, errormsg_update, hacq]

/-- After one repetition the CURRENT_REPETITION register holds that
repetition's index. -/
theorem loop_body_currentRep (v : VendorApi) (cfg : RunConfig) (s : IocState)
    (r : ℤ) : (loop_body v cfg s r).1.params "CURRENT_REPETITION" =
      .int r := by
  unfold loop_body
  split
  all_goals cases hacq : s.device.acq s.device.startCount
  all_goals simp [wait, save_step, set_array_pv_value, setParamF,
    update_CURRENT_REPETITION, update_WAITING, update_RUNNING,
    update_CONNECTED, update_OUTPUTFILE, update_CORRELATION_FUNCTION,
    update_LAGS, update_error_pv_print_and_log, errormsg_update, hacq]

/-- CONNECTED after one repetition: the disconnect branch forces it to
false, the data branch leaves it alone. -/
theorem loop_body_connected (v : VendorApi) (cfg : RunConfig) (s : IocState)
    (r : ℤ) : (loop_body v cfg s r).1.params "CONNECTED" =
      if s.device.acq s.device.startCount = none then .bool false
      else s.params "CONNECTED" := by
  unfold loop_body
  split
  all_goals cases hacq : s.device.acq s.device.startCount
  all_goals simp [wait, save_step, set_array_pv_value, setParamF,
    update_CURRENT_REPETITION, update_WAITING, update_RUNNING,
    update_CONNECTED, update_OUTPUTFILE, update_CORRELATION_FUNCTION,
    update_LAGS, update_error_pv_print_and_log, errormsg_update, hacq]

/-- A repetition writes no file carrying another repetition's index. -/
theorem loop_body_fileWrites_ne (v : VendorApi) (cfg : RunConfig)
    (s : IocState) (r r2 : ℤ) (hne : r ≠ r2) :
    (loop_body v cfg s r).2.countP (Ev.isFileWriteOf r2) = 0 := by
  unfold loop_body
  split
  all_goals cases hacq : s.device.acq s.device.startCount
  all_goals simp [wait, save_step, set_array_pv_value,
    update_CURRENT_REPETITION, update_WAITING, update_RUNNING,
    update_CONNECTED, update_OUTPUTFILE, update_CORRELATION_FUNCTION,
    update_LAGS, update_error_pv_print_and_log, errormsg_update, hacq,
    List.countP_append, List.countP_cons, Ev.isFileWriteOf, hne]

/-- A repetition whose acquisition returns no data writes no file at all. -/
theorem loop_body_fileWrites_none (v : VendorApi) (cfg : RunConfig)
    (s : IocState) (r r2 : ℤ)
    (hnone : s.device.acq s.device.startCount = none) :
    (loop_body v cfg s r).2.countP (Ev.isFileWriteOf r2) = 0 := by
  unfold loop_body
  split
  all_goals simp [wait, save_step, set_array_pv_value,
    update_CURRENT_REPETITION, update_WAITING, update_RUNNING,
    update_CONNECTED, update_OUTPUTFILE, update_CORRELATION_FUNCTION,
    update_LAGS, update_error_pv_print_and_log, errormsg_update, hnone,
    List.countP_append, List.countP_cons, Ev.isFileWriteOf]

/-- A repetition whose acquisition returns no data broadcasts the
TIMEOUT/INVALID alarm. -/
theorem loop_body_broadcast (v : VendorApi) (cfg : RunConfig) (s : IocState)
    (r : ℤ) (hnone : s.device.acq s.device.startCount = none) :
    Ev.alarmBroadcast ⟨.timeoutAlarm, .invalidAlarm⟩ ∈
      (loop_body v cfg s r).2 := by
  unfold loop_body
  split
  all_goals simp [wait, save_step, set_array_pv_value,
    update_CURRENT_REPETITION, update_WAITING, update_RUNNING,
    update_CONNECTED, update_OUTPUTFILE, update_CORRELATION_FUNCTION,
    update_LAGS, update_error_pv_print_and_log, errormsg_update, hnone]

/-! ### Induction over the repetition loop -/

/-- The loop starts the device once per repetition. -/
theorem run_loop_starts (v : VendorApi) (cfg : RunConfig) :
    ∀ (n : ℕ) (s : IocState) (r0 : ℤ),
      (run_loop v cfg s r0 n).2.countP Ev.isStart = n := by
  intro n
  induction n with
  | zero => intro s r0; rfl
  | succ k ih =>
    intro s r0
    simp only [run_loop, List.countP_append, loop_body_starts, ih]
    omega

/-- The loop advances the device start counter by the repetition count and
touches nothing else on the device. -/
theorem run_loop_device (v : VendorApi) (cfg : RunConfig) :
    ∀ (n : ℕ) (s : IocState) (r0 : ℤ),
      (run_loop v cfg s r0 n).1.device =
        { s.device with startCount := s.device.startCount + n } := by
  intro n
  induction n with
  | zero => intro s r0; rfl
  | succ k ih =>
    intro s r0
    simp only [run_loop, ih, loop_body_device]
    congr 1
    omega

/-- After at least one repetition, CURRENT_REPETITION holds the index of the
last repetition executed. -/
theorem run_loop_currentRep (v : VendorApi) (cfg : RunConfig) :
    ∀ (n : ℕ) (s : IocState) (r0 : ℤ), 1 ≤ n →
      (run_loop v cfg s r0 n).1.params "CURRENT_REPETITION" =
        .int (r0 + n - 1) := by
  intro n
  induction n with
  | zero => intro s r0 h; omega
  | succ k ih =>
    intro s r0 _
    rcases Nat.eq_zero_or_pos k with rfl | hk
    · simp only [run_loop, loop_body_currentRep]
      norm_num
    · simp only [run_loop]
      rw [ih _ _ hk]
      congr 1
      push_cast
      ring

/-- The loop preserves the stamped alarm state. -/
theorem run_loop_alarms_preserve (v : VendorApi) (cfg : RunConfig) :
    ∀ (n : ℕ) (s : IocState) (r0 : ℤ), AlarmsStamped s →
      AlarmsStamped (run_loop v cfg s r0 n).1 := by
  intro n
  induction n with
  | zero => intro s r0 h; exact h
  | succ k ih =>
    intro s r0 h
    simp only [run_loop]
    exact ih _ _ (loop_body_alarms v cfg s r0 h)

/-- The loop never resets a false CONNECTED flag. -/
theorem run_loop_connected_preserve (v : VendorApi) (cfg : RunConfig) :
    ∀ (n : ℕ) (s : IocState) (r0 : ℤ),
      s.params "CONNECTED" = .bool false →
      (run_loop v cfg s r0 n).1.params "CONNECTED" = .bool false := by
  intro n
  induction n with
  | zero => intro s r0 h; exact h
  | succ k ih =>
    intro s r0 h
    simp only [run_loop]
    refine ih _ _ ?_
    rw [loop_body_connected]
    split
    · rfl
    · exact h

/-- Repetitions with indices above a given one write no file for it. -/
theorem run_loop_fileWrites_lt (v : VendorApi) (cfg : RunConfig) (r : ℤ) :
    ∀ (n : ℕ) (s : IocState) (r0 : ℤ), r < r0 →
      (run_loop v cfg s r0 n).2.countP (Ev.isFileWriteOf r) = 0 := by
  intro n
  induction n with
  | zero => intro s r0 h; rfl
  | succ k ih =>
    intro s r0 h
    simp only [run_loop, List.countP_append]
    rw [loop_body_fileWrites_ne v cfg s r0 r (by omega), ih _ _ (by omega)]

/-- If the acquisition of repetition r (inside the loop's range) returns no
data, then when the loop finishes the alarm pair is stamped on every record,
CONNECTED is false, the broadcast event was emitted, and no output file event
carries index r. -/
theorem run_loop_disconnect (v : VendorApi) (cfg : RunConfig) (r : ℤ) :
    ∀ (n : ℕ) (s : IocState) (r0 : ℤ),
      (s.device.startCount : ℤ) = r0 - 1 → 1 ≤ r0 →
      r0 ≤ r → r < r0 + n →
      s.device.acq (r - 1).toNat = none →
      AlarmsStamped (run_loop v cfg s r0 n).1 ∧
      (run_loop v cfg s r0 n).1.params "CONNECTED" = .bool false ∧
      Ev.alarmBroadcast ⟨.timeoutAlarm, .invalidAlarm⟩ ∈
        (run_loop v cfg s r0 n).2 ∧
      (run_loop v cfg s r0 n).2.countP (Ev.isFileWriteOf r) = 0 := by
  intro n
  induction n with
  | zero =>
    intro s r0 h1 h2 h3 h4 h5
    omega
  | succ k ih =>
    intro s r0 h1 h2 h3 h4 h5
    rcases eq_or_lt_of_le h3 with heq | hlt
    · have hnone : s.device.acq s.device.startCount = none := by
        have hsc : s.device.startCount = (r - 1).toNat := by omega
        rw [hsc]
        exact h5
      have hA := loop_body_alarms_establish v cfg s r0 hnone
      have hC : (loop_body v cfg s r0).1.params "CONNECTED" = .bool false := by
        rw [loop_body_connected, if_pos hnone]
      refine ⟨?_, ?_, ?_, ?_⟩
      · simp only [run_loop]
        exact run_loop_alarms_preserve v cfg k _ _ hA
      · simp only [run_loop]
        exact run_loop_connected_preserve v cfg k _ _ hC
      · simp only [run_loop]
        exact List.mem_append.mpr
          (Or.inl (loop_body_broadcast v cfg s r0 hnone))
      · simp only [run_loop, List.countP_append]
        rw [loop_body_fileWrites_none v cfg s r0 r hnone,
          run_loop_fileWrites_lt v cfg r k _ _ (by omega)]
    · have hdev := loop_body_device v cfg s r0
      have h1' : ((loop_body v cfg s r0).1.device.startCount : ℤ) =
          (r0 + 1) - 1 := by
        rw [hdev]
        push_cast
        omega
      have h5' : (loop_body v cfg s r0).1.device.acq (r - 1).toNat = none := by
        rw [hdev]
        exact h5
      have hrec := ih (loop_body v cfg s r0).1 (r0 + 1) h1' (by omega)
        (by omega) (by push_cast at h4; omega) h5'
      refine ⟨?_, ?_, ?_, ?_⟩
      · simp only [run_loop]
        exact hrec.1
      · simp only [run_loop]
        exact hrec.2.1
      · simp only [run_loop]
        exact List.mem_append.mpr (Or.inr hrec.2.2.1)
      · simp only [run_loop, List.countP_append]
        rw [loop_body_fileWrites_ne v cfg s r0 r (by omega), hrec.2.2.2]

/-! ### The head of take_data -/

/-- The configure call leaves every parameter other than the ERRORMSG pair
unchanged. -/
theorem configure_step_params_key (s : IocState) (k : String)
    (hk1 : k ≠ "ERRORMSG") (hk2 : k ≠ "ERRORMSG.VAL") :
    (configure_step s).1.params k = s.params k := by
  unfold configure_step
  split
  · simp [update_error_pv_print_and_log, errormsg_update, hk1, hk2]
  · rfl

/-- The configure call does not start the device. -/
theorem configure_step_startCount (s : IocState) :
    (configure_step s).1.device.startCount = s.device.startCount := by
  unfold configure_step
  split <;> rfl

/-- The configure call does not change the acquisition outcomes. -/
theorem configure_step_acq (s : IocState) :
    (configure_step s).1.device.acq = s.device.acq := by
  unfold configure_step
  split <;> rfl

/-- No device-start event is emitted by the configure call. -/
theorem configure_step_no_starts (s : IocState) :
    (configure_step s).2.countP Ev.isStart = 0 := by
  unfold configure_step
  split <;>
    simp [update_error_pv_print_and_log, errormsg_update,
      List.countP_cons, Ev.isStart]

/-- No file-write event is emitted by the configure call. -/
theorem configure_step_no_fileWrites (s : IocState) (r : ℤ) :
    (configure_step s).2.countP (Ev.isFileWriteOf r) = 0 := by
  unfold configure_step
  split <;>
    simp [update_error_pv_print_and_log, errormsg_update,
      List.countP_cons, Ev.isFileWriteOf]

/-- Base PV names read at the top of take_data carry no :SP suffix. -/
@[simp]
theorem pyEndsWith_REPETITIONS : pyEndsWith "REPETITIONS" ":SP" = false := rfl

/-- The WAIT name carries no :SP suffix. -/
@[simp]
theorem pyEndsWith_WAIT : pyEndsWith "WAIT" ":SP" = false := rfl

/-- The WAIT_AT_START name carries no :SP suffix. -/
@[simp]
theorem pyEndsWith_WAIT_AT_START :
    pyEndsWith "WAIT_AT_START" ":SP" = false := rfl

/-- The MIN_TIME_LAG name carries no :SP suffix. -/
@[simp]
theorem pyEndsWith_MIN_TIME_LAG : pyEndsWith "MIN_TIME_LAG" ":SP" = false := rfl

/-- Evaluating the four configuration reads at the top of take_data when the
three numeric parameters hold finite floats (WAIT_AT_START converts through
bool() and never fails). -/
theorem read_run_config_eval (v : VendorApi) (s : IocState) (nq wq mq : ℚ)
    (h1 : s.params "REPETITIONS" = .float (.finite nq))
    (h2 : s.params "WAIT" = .float (.finite wq))
    (h3 : s.params "MIN_TIME_LAG" = .float (.finite mq)) :
    read_run_config (theRecords v) s =
      .ok ⟨pyRoundQ nq, pyRoundQ wq, pyBool (s.params "WAIT_AT_START"),
        ((pyRoundQ mq : ℤ) : ℚ) / 1000000000⟩ := by
  unfold read_run_config get_converted_pv_value IOC.read
  rw [theRecords_REPETITIONS, theRecords_WAIT, theRecords_WAIT_AT_START,
    theRecords_MIN_TIME_LAG]
  simp only [pyEndsWith_REPETITIONS, pyEndsWith_WAIT,
    pyEndsWith_WAIT_AT_START, pyEndsWith_MIN_TIME_LAG, Bool.false_eq_true,
    if_false, getParam, h1, h2, h3]
  rfl

/-- The full take_data run: one device start per repetition, with
CURRENT_REPETITION left at the final repetition index. -/
theorem take_data_run (v : VendorApi) (s : IocState) (nq wq mq : ℚ) (N : ℤ)
    (h1 : s.params "REPETITIONS" = .float (.finite nq))
    (h2 : s.params "WAIT" = .float (.finite wq))
    (h3 : s.params "MIN_TIME_LAG" = .float (.finite mq))
    (hN : pyRoundQ nq = N) (hpos : 1 ≤ N) :
    (take_data v s).2.countP Ev.isStart = N.toNat ∧
    (take_data v s).1.params "CURRENT_REPETITION" = .int N ∧
    (take_data v s).1.device.startCount =
      s.device.startCount + N.toNat := by
  have hp1 : (configure_step s).1.params "REPETITIONS" =
      .float (.finite nq) := by
    rw [configure_step_params_key _ _ (by decide) (by decide)]
    exact h1
  have hp2 : (configure_step s).1.params "WAIT" = .float (.finite wq) := by
    rw [configure_step_params_key _ _ (by decide) (by decide)]
    exact h2
  have hp3 : (configure_step s).1.params "MIN_TIME_LAG" =
      .float (.finite mq) := by
    rw [configure_step_params_key _ _ (by decide) (by decide)]
    exact h3
  have hread := read_run_config_eval v (configure_step s).1 nq wq mq hp1 hp2 hp3
  have hn1 : 1 ≤ N.toNat := by omega
  refine ⟨?_, ?_, ?_⟩
  · simp only [take_data, hread, hN, update_TAKING_DATA,
      List.countP_append, configure_step_no_starts, run_loop_starts,
      update_param_and_fields_events]
    simp [List.countP_cons, Ev.isStart]
  · simp only [take_data, hread, hN, update_TAKING_DATA,
      update_param_and_fields_params]
    rw [run_loop_currentRep v _ _ _ _ hn1]
    simp only [if_neg (by decide : ("CURRENT_REPETITION" : String) ≠ "START:SP" ++ ".VAL"),
      if_neg (by decide : ("CURRENT_REPETITION" : String) ≠ "START:SP"),
      if_neg (by decide : ("CURRENT_REPETITION" : String) ≠ "START" ++ ".VAL"),
      if_neg (by decide : ("CURRENT_REPETITION" : String) ≠ "START"),
      if_neg (by decide : ("CURRENT_REPETITION" : String) ≠ "TAKING_DATA" ++ ".VAL"),
      if_neg (by decide : ("CURRENT_REPETITION" : String) ≠ "TAKING_DATA")]
    congr 1
    omega
  · simp only [take_data, hread, hN, update_TAKING_DATA,
      update_param_and_fields_device]
    rw [run_loop_device]
    simp [configure_step_startCount]

/-- The full take_data run when repetition r's acquisition returns no data:
CONNECTED ends false, the TIMEOUT/INVALID pair is broadcast and still stamped
on every record at the end, and no file event carries index r. -/
theorem take_data_disconnect (v : VendorApi) (s : IocState) (nq wq mq : ℚ)
    (N r : ℤ)
    (h1 : s.params "REPETITIONS" = .float (.finite nq))
    (h2 : s.params "WAIT" = .float (.finite wq))
    (h3 : s.params "MIN_TIME_LAG" = .float (.finite mq))
    (hN : pyRoundQ nq = N)
    (hsc : s.device.startCount = 0)
    (hr1 : 1 ≤ r) (hrN : r ≤ N)
    (hnone : s.device.acq (r - 1).toNat = none) :
    AlarmsStamped (take_data v s).1 ∧
    (take_data v s).1.params "CONNECTED" = .bool false ∧
    Ev.alarmBroadcast ⟨.timeoutAlarm, .invalidAlarm⟩ ∈ (take_data v s).2 ∧
    (take_data v s).2.countP (Ev.isFileWriteOf r) = 0 := by
  have hp1 : (configure_step s).1.params "REPETITIONS" =
      .float (.finite nq) := by
    rw [configure_step_params_key _ _ (by decide) (by decide)]
    exact h1
  have hp2 : (configure_step s).1.params "WAIT" = .float (.finite wq) := by
    rw [configure_step_params_key _ _ (by decide) (by decide)]
    exact h2
  have hp3 : (configure_step s).1.params "MIN_TIME_LAG" =
      .float (.finite mq) := by
    rw [configure_step_params_key _ _ (by decide) (by decide)]
    exact h3
  have hread := read_run_config_eval v (configure_step s).1 nq wq mq hp1 hp2 hp3
  have hdisc := run_loop_disconnect v
    ⟨N, pyRoundQ wq, pyBool ((configure_step s).1.params "WAIT_AT_START"),
      ((pyRoundQ mq : ℤ) : ℚ) / 1000000000⟩ r N.toNat
    (update_param_and_fields { (configure_step s).1 with
      already_started := true } "TAKING_DATA" (.bool true)).1 1
    (by
      rw [update_param_and_fields_device]
      show (((configure_step s).1.device.startCount : ℕ) : ℤ) = 1 - 1
      rw [configure_step_startCount, hsc]
      rfl)
    (by omega) hr1
    (by omega)
    (by
      rw [update_param_and_fields_device]
      show (configure_step s).1.device.acq (r - 1).toNat = none
      rw [configure_step_acq]
      exact hnone)
  refine ⟨?_, ?_, ?_, ?_⟩
  · simp only [take_data, hread, hN, update_TAKING_DATA]
    repeat
      first
        | exact hdisc.1
        | apply update_param_and_fields_alarms
        | apply alarms_set_already_started
  · simp only [take_data, hread, hN, update_TAKING_DATA,
      update_param_and_fields_params]
    simp only [String.reduceAppend, String.reduceEq, if_false]
    exact hdisc.2.1
  · have hb := hdisc.2.2.1
    simp only [take_data, hread, hN, update_TAKING_DATA, List.mem_append]
    tauto
  · simp only [take_data, hread, hN, update_TAKING_DATA,
      List.countP_append, configure_step_no_fileWrites,
      update_param_and_fields_events, hdisc.2.2.2]
    simp [List.countP_cons, Ev.isFileWriteOf]

/-- The START name carries no :SP suffix. -/
@[simp]
theorem pyEndsWith_START : pyEndsWith "START" ":SP" = false := rfl

/-- C3: while the already-started guard is set, a write to the START register
is rejected: no takeData work item is submitted, the rejection is recorded in
ERRORMSG, and executing whatever was submitted leaves the device untouched —
device.configure() and device.start() are not invoked again, so this write
cannot make a second measurement run active. -/
theorem start_rejected_when_active (v : VendorApi) (s : IocState) (value : Val)
    (h : s.already_started = true) :
    IocTask.takeData ∉ (write s "START" value).2.2 ∧
    (write s "START" value).1.params "ERRORMSG" =
      .str "LSI --- Cannot configure: Measurement active" ∧
    ∀ t ∈ (write s "START" value).2.2,
      (exec_task v (write s "START" value).1 t).1.device =
        (write s "START" value).1.device := by
  refine ⟨?_, ?_, ?_⟩
  all_goals simp only [write, h, not_true, and_false, false_and, if_false,
    and_true, and_self, if_true, pyEndsWith_START, Bool.false_eq_true,
    update_error_pv_print_and_log, errormsg_update]
  · simp
  · simp only [update_param_and_fields_params]
    simp
  · intro t ht
    simp at ht
    subst ht
    simp only [exec_task]
    rw [update_pv_of_simple _ _ _ _ _ (.bool (pyBool value))
      (.bool (pyBool value)) (theRecords_START v) rfl rfl rfl]
    simp

/-- Evaluation of banker's rounding at the integer input 2. -/
theorem pyRoundQ_two : pyRoundQ 2 = 2 := by
  unfold pyRoundQ
  norm_num

/-- The configure call reports a RuntimeError through ERRORMSG and
returns. -/
theorem configure_step_fail (s : IocState) (msg : String)
    (h : s.device.configureError = some msg) :
    configure_step s = update_error_pv_print_and_log s msg := by
  unfold configure_step
  rw [h]

/-- C4: for every requested repetition count N >= 1, a measurement run
during which the device never becomes disconnected starts the device exactly
N times and leaves the CURRENT_REPETITION register equal to N when the run
completes. -/
theorem repetition_count (v : VendorApi) (s : IocState) (nq wq mq : ℚ)
    (N : ℤ)
    (h1 : s.params "REPETITIONS" = .float (.finite nq))
    (h2 : s.params "WAIT" = .float (.finite wq))
    (h3 : s.params "MIN_TIME_LAG" = .float (.finite mq))
    (hN : pyRoundQ nq = N) (hpos : 1 ≤ N)
    (_hconn : ∀ k, (s.device.acq k).isSome = true) :
    (take_data v s).2.countP Ev.isStart = N.toNat ∧
    (take_data v s).1.device.startCount = s.device.startCount + N.toNat ∧
    (take_data v s).1.params "CURRENT_REPETITION" = .int N := by
  have h := take_data_run v s nq wq mq N h1 h2 h3 hN hpos
  exact ⟨h.1, h.2.2, h.2.1⟩

/-- A concrete acquisition outcome used by the concrete instances. -/
def demoAcq : AcqData :=
  ⟨[.finite 1, .nan], [.finite 300, .finite 100], [.finite 2], [.finite 3]⟩

/-- Concrete parameter table holding a two-repetition run configuration. -/
def runParams : String → Val := fun k =>
  if k = "REPETITIONS" then .float (.finite 2)
  else if k = "WAIT" then .float (.finite 0)
  else if k = "MIN_TIME_LAG" then .float (.finite 200)
  else if k = "WAIT_AT_START" then .bool false
  else .str ""

/-- A connected device: every acquisition returns data. -/
def connectedDevice : DeviceState := ⟨0, 0, none, fun _ => some demoAcq⟩

/-- A run-ready driver state. -/
def runState : IocState :=
  ⟨runParams, fun _ => ⟨.noAlarm, .noAlarm⟩, .noAlarm, .noAlarm, false,
   connectedDevice, [], [], false, true, ""⟩

/-- The run-ready state with the re-entrancy guard set. -/
def busyState : IocState := { runState with already_started := true }

/-- A device whose first acquisition returns no data. -/
def dropFirstDevice : DeviceState :=
  ⟨0, 0, none, fun k => if k = 0 then none else some demoAcq⟩

/-- A run-ready state on a device that drops the first acquisition. -/
def dropFirstState : IocState := { runState with device := dropFirstDevice }

/-- A device that rejects configure() as busy. -/
def busyConfigureDevice : DeviceState :=
  ⟨0, 0, some "LSI --- Cannot configure: Measurement active",
   fun _ => some demoAcq⟩

/-- A run-ready state whose device rejects configure(). -/
def busyConfigureState : IocState :=
  { runState with device := busyConfigureDevice }

/-- C3 witness: the rejection of a START write while the guard is set,
evaluated on a concrete busy state. -/
theorem start_rejected_when_active_witness :
    IocTask.takeData ∉ (write busyState "START" (.int 1)).2.2 ∧
    (write busyState "START" (.int 1)).1.params "ERRORMSG" =
      .str "LSI --- Cannot configure: Measurement active" ∧
    ∀ t ∈ (write busyState "START" (.int 1)).2.2,
      (exec_task okVendor (write busyState "START" (.int 1)).1 t).1.device =
        (write busyState "START" (.int 1)).1.device :=
  start_rejected_when_active okVendor busyState (.int 1) rfl

/-- C4 witness: a two-repetition run on a connected device starts the device
twice and leaves CURRENT_REPETITION at 2. -/
theorem repetition_count_witness :
    (take_data okVendor runState).2.countP Ev.isStart = (2 : ℤ).toNat ∧
    (take_data okVendor runState).1.device.startCount =
      runState.device.startCount + (2 : ℤ).toNat ∧
    (take_data okVendor runState).1.params "CURRENT_REPETITION" = .int 2 :=
  repetition_count okVendor runState 2 0 200 2 rfl rfl rfl pyRoundQ_two
    (by decide) (fun _ => rfl)

/-- C5: if repetition r's acquisition returns no data, then when the run
completes CONNECTED is false, one TIMEOUT/INVALID broadcast was emitted and
that pair is stamped on every register, no output file event carries that
repetition's index — and the remaining repetitions still execute (the device
is still started once per requested repetition). -/
theorem disconnect_scenario (v : VendorApi) (s : IocState) (nq wq mq : ℚ)
    (N r : ℤ)
    (h1 : s.params "REPETITIONS" = .float (.finite nq))
    (h2 : s.params "WAIT" = .float (.finite wq))
    (h3 : s.params "MIN_TIME_LAG" = .float (.finite mq))
    (hN : pyRoundQ nq = N) (hpos : 1 ≤ N)
    (hsc : s.device.startCount = 0)
    (hr1 : 1 ≤ r) (hrN : r ≤ N)
    (hnone : s.device.acq (r - 1).toNat = none) :
    (take_data v s).1.params "CONNECTED" = .bool false ∧
    Ev.alarmBroadcast ⟨.timeoutAlarm, .invalidAlarm⟩ ∈ (take_data v s).2 ∧
    AlarmsStamped (take_data v s).1 ∧
    (take_data v s).2.countP (Ev.isFileWriteOf r) = 0 ∧
    (take_data v s).2.countP Ev.isStart = N.toNat := by
  have hd := take_data_disconnect v s nq wq mq N r h1 h2 h3 hN hsc hr1 hrN
    hnone
  have hrun := take_data_run v s nq wq mq N h1 h2 h3 hN hpos
  exact ⟨hd.2.1, hd.2.2.1, hd.1, hd.2.2.2, hrun.1⟩

/-- C5 witness: a two-repetition run whose first acquisition returns no
data, on a concrete state. -/
theorem disconnect_scenario_witness :
    (take_data okVendor dropFirstState).1.params "CONNECTED" = .bool false ∧
    Ev.alarmBroadcast ⟨.timeoutAlarm, .invalidAlarm⟩ ∈
      (take_data okVendor dropFirstState).2 ∧
    AlarmsStamped (take_data okVendor dropFirstState).1 ∧
    (take_data okVendor dropFirstState).2.countP (Ev.isFileWriteOf 1) = 0 ∧
    (take_data okVendor dropFirstState).2.countP Ev.isStart = (2 : ℤ).toNat :=
  disconnect_scenario okVendor dropFirstState 2 0 200 2 1 rfl rfl rfl
    pyRoundQ_two (by decide) rfl (by decide) (by decide) rfl

/-- C6 counterexample: with device.configure() raising the DeviceBusy
RuntimeError, the run is still started — the repetitions execute and
device.start() is called — refuting the claim that no repetition executes
and start is never invoked. -/
theorem configure_busy_cex :
    busyConfigureState.device.configureError =
      some "LSI --- Cannot configure: Measurement active" ∧
    (take_data okVendor busyConfigureState).2.countP Ev.isStart = 2 ∧
    (take_data okVendor busyConfigureState).2.countP Ev.isStart ≠ 0 := by
  have h := (take_data_run okVendor busyConfigureState 2 0 200 2 rfl rfl rfl
    pyRoundQ_two (by decide)).1
  exact ⟨rfl, h, by rw [h]; decide⟩

/-- C6 (amended): a RuntimeError raised by device.configure() at the start
of a run is caught: its message is recorded in the ERRORMSG register and
logged, and the run then proceeds anyway — the device is still started once
per requested repetition. -/
theorem configure_error_recorded_run_proceeds (v : VendorApi) (s : IocState)
    (nq wq mq : ℚ) (N : ℤ) (msg : String)
    (h1 : s.params "REPETITIONS" = .float (.finite nq))
    (h2 : s.params "WAIT" = .float (.finite wq))
    (h3 : s.params "MIN_TIME_LAG" = .float (.finite mq))
    (hN : pyRoundQ nq = N) (hpos : 1 ≤ N)
    (hfail : s.device.configureError = some msg) :
    Ev.paramSet "ERRORMSG" (.str msg) ∈ (take_data v s).2 ∧
    Ev.logMsg msg ∈ (take_data v s).2 ∧
    (take_data v s).2.countP Ev.isStart = N.toNat := by
  have hp1 : (configure_step s).1.params "REPETITIONS" =
      .float (.finite nq) := by
    rw [configure_step_params_key _ _ (by decide) (by decide)]
    exact h1
  have hp2 : (configure_step s).1.params "WAIT" = .float (.finite wq) := by
    rw [configure_step_params_key _ _ (by decide) (by decide)]
    exact h2
  have hp3 : (configure_step s).1.params "MIN_TIME_LAG" =
      .float (.finite mq) := by
    rw [configure_step_params_key _ _ (by decide) (by decide)]
    exact h3
  have hread := read_run_config_eval v (configure_step s).1 nq wq mq hp1 hp2
    hp3
  have hm1 : Ev.paramSet "ERRORMSG" (.str msg) ∈ (configure_step s).2 := by
    rw [configure_step_fail s msg hfail]
    simp [update_error_pv_print_and_log, errormsg_update]
  have hm2 : Ev.logMsg msg ∈ (configure_step s).2 := by
    rw [configure_step_fail s msg hfail]
    simp [update_error_pv_print_and_log, errormsg_update]
  refine ⟨?_, ?_, (take_data_run v s nq wq mq N h1 h2 h3 hN hpos).1⟩
  · simp only [take_data, hread, hN, update_TAKING_DATA, List.mem_append]
    tauto
  · simp only [take_data, hread, hN, update_TAKING_DATA, List.mem_append]
    tauto

/-- C6 witness: the amended behaviour on a concrete state whose device
rejects configure() as busy. -/
theorem configure_error_recorded_run_proceeds_witness :
    Ev.paramSet "ERRORMSG"
        (.str "LSI --- Cannot configure: Measurement active") ∈
      (take_data okVendor busyConfigureState).2 ∧
    Ev.logMsg "LSI --- Cannot configure: Measurement active" ∈
      (take_data okVendor busyConfigureState).2 ∧
    (take_data okVendor busyConfigureState).2.countP Ev.isStart =
      (2 : ℤ).toNat :=
  configure_error_recorded_run_proceeds okVendor busyConfigureState 2 0 200 2
    "LSI --- Cannot configure: Measurement active" rfl rfl rfl pyRoundQ_two
    (by decide) rfl

/-- One repetition of the loop performs exactly one sleep when the guard
`(repeat == 1 and wait_at_start) or repeat != 1` holds and none otherwise. -/
theorem loop_body_sleeps (v : VendorApi) (cfg : RunConfig) (s : IocState)
    (r : ℤ) :
    (loop_body v cfg s r).2.countP Ev.isSleep =
      if (r == 1 && cfg.wait_at_start) || r != 1 then 1 else 0 := by
  unfold loop_body
  simp only [wait, save_step, set_array_pv_value, update_CURRENT_REPETITION,
    update_WAITING, update_RUNNING, update_CONNECTED,
    update_CORRELATION_FUNCTION, update_LAGS, update_OUTPUTFILE,
    update_error_pv_print_and_log, errormsg_update,
    update_param_and_fields_events, driver_take_data_events,
    set_disconnected_alarms_events]
  split <;> split <;>
    simp_all [List.countP_append, List.countP_cons, Ev.isSleep]

/-- C9: the wait performed by the measurement loop publishes WAITING=true
(with its .VAL mirror and status stamp) immediately before the sleep and
WAITING=false immediately after it; and a repetition r in 1..N performs
exactly one such sleep when (r == 1 and waitAtStart) or r > 1, and none
otherwise. -/
theorem waiting_around_sleep (v : VendorApi) (cfg : RunConfig) (s : IocState)
    (r : ℤ) (hr : 1 ≤ r) :
    (wait (theRecords v) s cfg.wait_in_seconds).2 =
      [Ev.paramSet "WAITING" (.bool true),
       Ev.paramSet "WAITING.VAL" (.bool true),
       Ev.statusSet "WAITING" ⟨s.alarm_status, s.alarm_severity⟩,
       Ev.sleepSeconds cfg.wait_in_seconds,
       Ev.paramSet "WAITING" (.bool false),
       Ev.paramSet "WAITING.VAL" (.bool false),
       Ev.statusSet "WAITING" ⟨s.alarm_status, s.alarm_severity⟩] ∧
    (loop_body v cfg s r).2.countP Ev.isSleep =
      (if (r = 1 ∧ cfg.wait_at_start = true) ∨ 1 < r then 1 else 0) := by
  constructor
  · unfold wait
    simp only [update_WAITING, update_param_and_fields_events,
      update_param_and_fields_alarm_status,
      update_param_and_fields_alarm_severity]
    simp
  · rw [loop_body_sleeps]
    have hiff : (((r == 1 && cfg.wait_at_start) || r != 1) = true) ↔
        ((r = 1 ∧ cfg.wait_at_start = true) ∨ 1 < r) := by
      simp only [Bool.or_eq_true, Bool.and_eq_true, beq_iff_eq, bne_iff_ne,
        ne_eq]
      constructor
      · rintro (⟨h1, h2⟩ | h1)
        · exact Or.inl ⟨h1, h2⟩
        · exact Or.inr (by omega)
      · rintro (⟨h1, h2⟩ | h1)
        · exact Or.inl ⟨h1, h2⟩
        · exact Or.inr (by omega)
    rcases em ((r = 1 ∧ cfg.wait_at_start = true) ∨ 1 < r) with hc | hc
    · rw [if_pos (hiff.mpr hc), if_pos hc]
    · rw [if_neg (fun h => hc (hiff.mp h)), if_neg hc]

/-- C9 witness: the wait events and the sleep count of repetition 2,
evaluated on the concrete run state. -/
theorem waiting_around_sleep_witness :
    (wait (theRecords okVendor) runState (⟨2, 0, false, 200⟩ :
        RunConfig).wait_in_seconds).2 =
      [Ev.paramSet "WAITING" (.bool true),
       Ev.paramSet "WAITING.VAL" (.bool true),
       Ev.statusSet "WAITING" ⟨runState.alarm_status, runState.alarm_severity⟩,
       Ev.sleepSeconds (⟨2, 0, false, 200⟩ : RunConfig).wait_in_seconds,
       Ev.paramSet "WAITING" (.bool false),
       Ev.paramSet "WAITING.VAL" (.bool false),
       Ev.statusSet "WAITING"
         ⟨runState.alarm_status, runState.alarm_severity⟩] ∧
    (loop_body okVendor ⟨2, 0, false, 200⟩ runState 2).2.countP Ev.isSleep =
      (if ((2 : ℤ) = 1 ∧ (⟨2, 0, false, 200⟩ : RunConfig).wait_at_start =
          true) ∨ (1 : ℤ) < 2 then 1 else 0) :=
  waiting_around_sleep okVendor ⟨2, 0, false, 200⟩ runState 2 (by decide)
